import Mathlib

/-!
Shallow embedding of the reliable message-relay core of `bot.py`
(telegram-support-bot): the `chats` conversation store, the `outbox`
delivery queue with retry/backoff, the `sent_messages` mapping log, the
relay functions `forward_to_topic` / `forward_to_user` and the drainer
`job_process_outbox`.

Modelling conventions:
- SQLite rows become Lean structures; nullable columns become `Option`.
- Timestamps (`datetime.now()`, `TIMESTAMP` columns) are epoch seconds as
  `Int`; the current time is passed explicitly to each operation that
  reads the clock.
- A table is a `List` of rows in insertion (rowid) order;
  `AUTOINCREMENT` ids come from an explicit `next_id` counter.
- SQL `UPDATE ... WHERE` is a map that rewrites the matching rows.
- The fallible transport call (`bot.copy_message`) is an explicit
  `Except` argument / oracle: `.ok` is a successful delivery (carrying
  the delivered message id), `.error` is a raised exception.
- Python float hour arithmetic (`total_seconds() / 3600`) is modelled
  exactly over `ℚ`.
-/

set_option maxHeartbeats 1600000
set_option maxRecDepth 40000

namespace SupportBot

/-- Timing configuration constant `FOLLOWUP_HOURS_NORMAL = 24` of bot.py. -/
def FOLLOWUP_HOURS_NORMAL : ℚ := 24

/-- Timing configuration constant `FOLLOWUP_HOURS_VIP = 12` of bot.py. -/
def FOLLOWUP_HOURS_VIP : ℚ := 12

/-- One row of the `chats` table (see `init_db` in bot.py). -/
structure ChatRow where
  user_id : Int
  username : String
  first_name : String
  last_name : String
  topic_id : Option Int
  status : String
  priority : String
  unread_count : Int
  last_message_preview : Option String
  last_message_type : Option String
  last_message_at : Option Int
  last_reply_at : Option Int
  created_at : Int
  is_archived : Int
  snoozed_until : Option Int
  followup_stage : Int
  followup_done : Int
deriving Repr, DecidableEq

/-- SQL `UPDATE ... SET ... WHERE p` over a table: rewrite every matching row. -/
def updateWhere (p : α → Bool) (f : α → α) (db : List α) : List α :=
  db.map fun r => if p r then f r else r

namespace Chat

/-- Row transformation of `Chat.new_message`: `UPDATE chats SET status='unread',
unread_count=unread_count+1, last_message_preview=?, last_message_type=?,
last_message_at=?, followup_stage=0, followup_done=0, snoozed_until=NULL`.
The caller passes `preview[:100]`, modelled as `preview.take 100`. -/
def new_message_row (now : Int) (preview msg_type : String) (r : ChatRow) : ChatRow :=
  { r with
    status := "unread"
    unread_count := r.unread_count + 1
    last_message_preview := some (preview.take 100)
    last_message_type := some msg_type
    last_message_at := some now
    followup_stage := 0
    followup_done := 0
    snoozed_until := none }

/-- `Chat.new_message(user_id, preview, msg_type)` on the chats table. -/
def new_message (db : List ChatRow) (user_id : Int) (now : Int)
    (preview msg_type : String) : List ChatRow :=
  updateWhere (fun r => r.user_id == user_id) (new_message_row now preview msg_type) db

/-- Row transformation of `Chat.mark_answered`: `SET status='answered',
unread_count=0, last_reply_at=now, followup_stage=0`. -/
def mark_answered_row (now : Int) (r : ChatRow) : ChatRow :=
  { r with
    status := "answered"
    unread_count := 0
    last_reply_at := some now
    followup_stage := 0 }

/-- `Chat.mark_answered(user_id)` on the chats table. -/
def mark_answered (db : List ChatRow) (user_id : Int) (now : Int) : List ChatRow :=
  updateWhere (fun r => r.user_id == user_id) (mark_answered_row now) db

/-- Row transformation of `Chat.mark_read`: `SET status=CASE WHEN
status='unread' THEN 'read' ELSE status END, unread_count=0`. -/
def mark_read_row (r : ChatRow) : ChatRow :=
  { r with
    status := if r.status == "unread" then "read" else r.status
    unread_count := 0 }

/-- `Chat.mark_read(user_id)` on the chats table. -/
def mark_read (db : List ChatRow) (user_id : Int) : List ChatRow :=
  updateWhere (fun r => r.user_id == user_id) mark_read_row db

/-- Row transformation of `Chat.mark_unread`: `SET status='unread',
unread_count=CASE WHEN unread_count=0 THEN 1 ELSE unread_count END`. -/
def mark_unread_row (r : ChatRow) : ChatRow :=
  { r with
    status := "unread"
    unread_count := if r.unread_count == 0 then 1 else r.unread_count }

/-- `Chat.mark_unread(user_id)` on the chats table. -/
def mark_unread (db : List ChatRow) (user_id : Int) : List ChatRow :=
  updateWhere (fun r => r.user_id == user_id) mark_unread_row db

/-- Row transformation of `Chat.set_priority`: `SET priority=?`. -/
def set_priority_row (priority : String) (r : ChatRow) : ChatRow :=
  { r with priority := priority }

/-- `Chat.set_priority(user_id, priority)` on the chats table. -/
def set_priority (db : List ChatRow) (user_id : Int) (priority : String) : List ChatRow :=
  updateWhere (fun r => r.user_id == user_id) (set_priority_row priority) db

/-- Row transformation of `Chat.archive`: `SET is_archived=1, status='closed'`. -/
def archive_row (r : ChatRow) : ChatRow :=
  { r with is_archived := 1, status := "closed" }

/-- `Chat.archive(user_id)` on the chats table. -/
def archive (db : List ChatRow) (user_id : Int) : List ChatRow :=
  updateWhere (fun r => r.user_id == user_id) archive_row db

/-- Row transformation of `Chat.snooze`: `SET snoozed_until = now + hours`. -/
def snooze_row (now : Int) (hours : Int) (r : ChatRow) : ChatRow :=
  { r with snoozed_until := some (now + hours * 3600) }

/-- `Chat.snooze(user_id, hours)` on the chats table. -/
def snooze (db : List ChatRow) (user_id : Int) (now hours : Int) : List ChatRow :=
  updateWhere (fun r => r.user_id == user_id) (snooze_row now hours) db

/-- Row transformation of `Chat.done_followup`: `SET followup_done=1`. -/
def done_followup_row (r : ChatRow) : ChatRow :=
  { r with followup_done := 1 }

/-- `Chat.done_followup(user_id)` on the chats table. -/
def done_followup (db : List ChatRow) (user_id : Int) : List ChatRow :=
  updateWhere (fun r => r.user_id == user_id) done_followup_row db

/-- A fresh row inserted by `Chat.create` (no conflict case): the `INSERT`
supplies identity fields, `topic_id` and `last_message_at`; the remaining
columns take their schema defaults (`status 'unread'`, `priority 'normal'`,
`unread_count 0`, `is_archived 0`, `followup_stage 0`, `followup_done 0`,
NULL timestamps). -/
def create_row (user_id : Int) (username first_name last_name : String)
    (topic_id : Int) (now : Int) : ChatRow :=
  { user_id := user_id
    username := username
    first_name := first_name
    last_name := last_name
    topic_id := some topic_id
    status := "unread"
    priority := "normal"
    unread_count := 0
    last_message_preview := none
    last_message_type := none
    last_message_at := some now
    last_reply_at := none
    created_at := now
    is_archived := 0
    snoozed_until := none
    followup_stage := 0
    followup_done := 0 }

/-- SQLite rank of `'urgent' THEN 0 WHEN 'vip' THEN 1 ELSE 2` in `get_unread`. -/
def priority_rank (p : String) : Nat :=
  if p == "urgent" then 0 else if p == "vip" then 1 else 2

/-- `ORDER BY last_message_at DESC` comparison: larger timestamps first,
NULL last (SQLite sorts NULL smallest). -/
def last_message_desc (a b : ChatRow) : Prop :=
  match a.last_message_at, b.last_message_at with
  | some x, some y => y ≤ x
  | some _, none => True
  | none, some _ => False
  | none, none => True

instance : DecidableRel last_message_desc := fun a b => by
  unfold last_message_desc
  cases a.last_message_at <;> cases b.last_message_at <;> infer_instance

/-- Full `ORDER BY` relation of `Chat.get_unread`: priority rank ascending,
then `last_message_at` descending. -/
def unread_order (a b : ChatRow) : Prop :=
  priority_rank a.priority < priority_rank b.priority ∨
    (priority_rank a.priority = priority_rank b.priority ∧ last_message_desc a b)

instance : DecidableRel unread_order := fun a b => by
  unfold unread_order; infer_instance

/-- `Chat.get_unread()`: `SELECT * FROM chats WHERE status='unread' AND
is_archived=0 AND (snoozed_until IS NULL OR snoozed_until < now) ORDER BY
priority rank, last_message_at DESC`. -/
def get_unread (db : List ChatRow) (now : Int) : List ChatRow :=
  (db.filter fun r =>
      r.status == "unread" && r.is_archived == 0 &&
        (match r.snoozed_until with
         | none => true
         | some s => decide (s < now))).insertionSort unread_order

/-- The three buckets returned by `Chat.get_followups_due`. -/
structure FollowupBuckets where
  due : List ChatRow
  urgent : List ChatRow
  overdue : List ChatRow
deriving Repr, DecidableEq

/-- Python `(now - last_reply_at).total_seconds() / 3600`, exactly over `ℚ`. -/
def hours_since (now t : Int) : ℚ :=
  ((now - t : Int) : ℚ) / 3600

/-- The follow-up threshold chosen in `get_followups_due`:
`FOLLOWUP_HOURS_VIP if priority == 'vip' else FOLLOWUP_HOURS_NORMAL`. -/
def followup_threshold (priority : String) : ℚ :=
  if priority == "vip" then FOLLOWUP_HOURS_VIP else FOLLOWUP_HOURS_NORMAL

/-- Loop body of `get_followups_due`: append the chat to `overdue` when
`hours_since ≥ 3 * threshold`, else to `urgent` when `≥ 1.5 * threshold`,
else to `due` when `≥ threshold`, else to none. -/
def classify_step (now : Int) (acc : FollowupBuckets) (chat : ChatRow) : FollowupBuckets :=
  match chat.last_reply_at with
  | none => acc
  | some t =>
    let h := hours_since now t
    let threshold := followup_threshold chat.priority
    if h ≥ threshold * 3 then { acc with overdue := acc.overdue ++ [chat] }
    else if h ≥ threshold * (3 / 2) then { acc with urgent := acc.urgent ++ [chat] }
    else if h ≥ threshold then { acc with due := acc.due ++ [chat] }
    else acc

/-- `ORDER BY last_reply_at ASC` comparison (NULL first, as in SQLite). -/
def last_reply_asc (a b : ChatRow) : Prop :=
  match a.last_reply_at, b.last_reply_at with
  | some x, some y => x ≤ y
  | none, _ => True
  | some _, none => False

instance : DecidableRel last_reply_asc := fun a b => by
  unfold last_reply_asc
  cases a.last_reply_at <;> cases b.last_reply_at <;> infer_instance

/-- The `SELECT` feeding the `get_followups_due` loop: `status='answered' AND
is_archived=0 AND followup_done=0 AND last_reply_at IS NOT NULL ORDER BY
last_reply_at ASC`. -/
def followup_rows (db : List ChatRow) : List ChatRow :=
  (db.filter fun r =>
      r.status == "answered" && r.is_archived == 0 && r.followup_done == 0 &&
        r.last_reply_at.isSome).insertionSort last_reply_asc

/-- `Chat.get_followups_due()`: classify each selected row into exactly one
of the buckets `due` / `urgent` / `overdue`. -/
def get_followups_due (db : List ChatRow) (now : Int) : FollowupBuckets :=
  (followup_rows db).foldl (classify_step now) ⟨[], [], []⟩

/-- Condition under which `classify_step` appends a row to `overdue`. -/
def bucket_overdue (now : Int) (c : ChatRow) : Bool :=
  match c.last_reply_at with
  | none => false
  | some t => decide (hours_since now t ≥ followup_threshold c.priority * 3)

/-- Condition under which `classify_step` appends a row to `urgent`. -/
def bucket_urgent (now : Int) (c : ChatRow) : Bool :=
  match c.last_reply_at with
  | none => false
  | some t =>
    decide (¬hours_since now t ≥ followup_threshold c.priority * 3 ∧
      hours_since now t ≥ followup_threshold c.priority * (3 / 2))

/-- Condition under which `classify_step` appends a row to `due`. -/
def bucket_due (now : Int) (c : ChatRow) : Bool :=
  match c.last_reply_at with
  | none => false
  | some t =>
    decide (¬hours_since now t ≥ followup_threshold c.priority * 3 ∧
      ¬hours_since now t ≥ followup_threshold c.priority * (3 / 2) ∧
      hours_since now t ≥ followup_threshold c.priority)

end Chat

/-- One row of the `outbox` table. -/
structure OutboxRow where
  id : Nat
  direction : String
  from_chat_id : Int
  to_chat_id : Int
  message_id : Int
  topic_id : Option Int
  retry_count : Int
  next_retry_at : Option Int
  status : String
  error : Option String
  created_at : Int
deriving Repr, DecidableEq

/-- The `outbox` table with its `AUTOINCREMENT` counter. -/
structure OutboxState where
  rows : List OutboxRow
  next_id : Nat
deriving Repr, DecidableEq

namespace Outbox

/-- `Outbox.add(direction, from_chat_id, to_chat_id, message_id, topic_id)`:
insert a pending entry with `next_retry_at = datetime.now()` and the schema
defaults `retry_count 0`, `status 'pending'`. -/
def add (st : OutboxState) (now : Int) (direction : String)
    (from_chat_id to_chat_id message_id : Int) (topic_id : Option Int) : OutboxState :=
  { rows := st.rows ++
      [{ id := st.next_id
         direction := direction
         from_chat_id := from_chat_id
         to_chat_id := to_chat_id
         message_id := message_id
         topic_id := topic_id
         retry_count := 0
         next_retry_at := some now
         status := "pending"
         error := none
         created_at := now }]
    next_id := st.next_id + 1 }

/-- `ORDER BY created_at ASC` comparison. -/
def created_asc (a b : OutboxRow) : Prop := a.created_at ≤ b.created_at

instance : DecidableRel created_asc := fun a b => by
  unfold created_asc; infer_instance

/-- `Outbox.get_pending()`: `SELECT * FROM outbox WHERE status='pending' AND
next_retry_at <= now ORDER BY created_at ASC LIMIT 20` (a NULL
`next_retry_at` fails the SQL comparison). -/
def get_pending (st : OutboxState) (now : Int) : List OutboxRow :=
  ((st.rows.filter fun r =>
      r.status == "pending" &&
        (match r.next_retry_at with
         | some t => decide (t ≤ now)
         | none => false)).insertionSort created_asc).take 20

/-- `Outbox.mark_sent(outbox_id)`: `UPDATE outbox SET status='sent' WHERE id=?`. -/
def mark_sent (st : OutboxState) (outbox_id : Nat) : OutboxState :=
  { st with
    rows := updateWhere (fun r => r.id == outbox_id)
      (fun r => { r with status := "sent" }) st.rows }

/-- The escalating delay table of `Outbox.mark_failed`:
`delays = [5, 15, 45, 120, 300, 900, 3600]` (seconds). -/
def delays : List Int := [5, 15, 45, 120, 300, 900, 3600]

/-- `delays[min(retry_count - 1, len(delays) - 1)]`: the backoff delay used
for the given (already incremented) retry count; the last table value
repeats once the table is exhausted. -/
def backoff_delay (retry_count : Int) : Int :=
  delays.getD (min (retry_count - 1) 6).toNat 3600

/-- Row transformation of `Outbox.mark_failed`: increment `retry_count`;
at `retry_count >= 10` set `status='failed'` (keeping `next_retry_at`),
otherwise set the new `next_retry_at = now + delay` from the delay table. -/
def mark_failed_row (error : String) (now : Int) (r : OutboxRow) : OutboxRow :=
  let retry_count := r.retry_count + 1
  if retry_count ≥ 10 then
    { r with status := "failed", error := some error, retry_count := retry_count }
  else
    { r with
      retry_count := retry_count
      next_retry_at := some (now + backoff_delay retry_count)
      error := some error }

/-- `Outbox.mark_failed(outbox_id, error)`: the `SELECT retry_count` followed
by the `UPDATE ... WHERE id=?` reads and rewrites the same row, so it is the
row transformation applied to the matching rows. -/
def mark_failed (st : OutboxState) (outbox_id : Nat) (error : String) (now : Int) : OutboxState :=
  { st with
    rows := updateWhere (fun r => r.id == outbox_id) (mark_failed_row error now) st.rows }

end Outbox

/-- One row of the `sent_messages` mapping table. -/
structure SentRow where
  id : Nat
  user_id : Int
  topic_msg_id : Int
  user_msg_id : Int
deriving Repr, DecidableEq

/-- The `sent_messages` table with its `AUTOINCREMENT` counter. -/
structure MapState where
  rows : List SentRow
  next_id : Nat
deriving Repr, DecidableEq

/-- `save_message_mapping(user_id, topic_msg_id, user_msg_id)`: insert the
triple, then `DELETE FROM sent_messages WHERE user_id=? AND id NOT IN
(SELECT id FROM sent_messages WHERE user_id=? ORDER BY id DESC LIMIT 100)`.
A row of this user survives the prune iff its id is among the user's 100
largest ids, i.e. iff fewer than 100 of the user's rows have a larger id
(ids are unique by construction). -/
def save_message_mapping (st : MapState) (user_id topic_msg_id user_msg_id : Int) : MapState :=
  let inserted := st.rows ++
    [{ id := st.next_id, user_id := user_id,
       topic_msg_id := topic_msg_id, user_msg_id := user_msg_id }]
  { rows := inserted.filter fun r =>
      !(r.user_id == user_id) ||
        decide ((inserted.filter fun x => x.user_id == user_id && decide (r.id < x.id)).length < 100)
    next_id := st.next_id + 1 }

/-- `get_user_msg_id(user_id, topic_msg_id)`: `SELECT user_msg_id FROM
sent_messages WHERE user_id=? AND topic_msg_id=?` and return the first
match (`fetchone`), or `None` when there is none. -/
def get_user_msg_id (st : MapState) (user_id topic_msg_id : Int) : Option Int :=
  (st.rows.find? fun r =>
      r.user_id == user_id && r.topic_msg_id == topic_msg_id).map (·.user_msg_id)

/-- One row of the `messages` log table (`log_msg`). -/
structure MsgRow where
  user_id : Int
  direction : String
  msg_type : String
  content : String
  file_id : String
  telegram_msg_id : Option Int
deriving Repr, DecidableEq

/-- `log_msg(user_id, direction, msg_type, content, file_id, telegram_msg_id)`:
append one row, truncating content to 500 characters. -/
def log_msg (log : List MsgRow) (user_id : Int) (direction msg_type content file_id : String)
    (telegram_msg_id : Option Int) : List MsgRow :=
  log ++
    [{ user_id := user_id, direction := direction, msg_type := msg_type,
       content := content.take 500, file_id := file_id,
       telegram_msg_id := telegram_msg_id }]

/-- The persistent state touched by the relay engine and drainer: the
`chats`, `outbox`, `sent_messages` and `messages` tables. -/
structure SystemState where
  chats : List ChatRow
  outbox : OutboxState
  sent_messages : MapState
  messages : List MsgRow
deriving Repr, DecidableEq

/-- `forward_to_topic(bot, msg, topic_id, user_id)`: the transport call
`bot.copy_message(chat_id=SUPPORT_GROUP_ID, ..., message_thread_id=topic_id)`
is the `copy_result` argument. On success (`.ok sent_id`): `log_msg`,
`Chat.new_message`, return `True`. On a raised exception (`.error`):
`Outbox.add("to_topic", msg.chat_id, SUPPORT_GROUP_ID, msg.message_id,
topic_id)` and return `False`. `preview` is `msg.text or msg.caption or
"[type]"`; `support_group_id` is the `SUPPORT_GROUP_ID` configuration. -/
def forward_to_topic (support_group_id : Int) (copy_result : Except String Int)
    (msg_chat_id msg_message_id topic_id user_id : Int)
    (preview msg_type : String) (now : Int) (st : SystemState) : Bool × SystemState :=
  match copy_result with
  | .ok sent_id =>
      (true,
        { st with
          messages := log_msg st.messages user_id "in" msg_type (preview.take 100) "" (some sent_id)
          chats := Chat.new_message st.chats user_id now (preview.take 100) msg_type })
  | .error _ =>
      (false,
        { st with
          outbox := Outbox.add st.outbox now "to_topic" msg_chat_id support_group_id
            msg_message_id (some topic_id) })

/-- `forward_to_user(bot, msg, user_id, topic_id)`: the transport call
`bot.copy_message(chat_id=user_id, ...)` is the `copy_result` argument. On
success: `save_message_mapping`, `log_msg`, `Chat.mark_answered`, return the
delivered message id. On a raised exception: `Outbox.add("to_user",
msg.chat_id, user_id, msg.message_id, topic_id)` and return `None`. -/
def forward_to_user (copy_result : Except String Int)
    (msg_chat_id msg_message_id user_id topic_id : Int)
    (preview msg_type : String) (now : Int) (st : SystemState) : Option Int × SystemState :=
  match copy_result with
  | .ok sent_id =>
      (some sent_id,
        { st with
          sent_messages := save_message_mapping st.sent_messages user_id msg_message_id sent_id
          messages := log_msg st.messages user_id "out" msg_type (preview.take 100) "" (some sent_id)
          chats := Chat.mark_answered st.chats user_id now })
  | .error _ =>
      (none,
        { st with
          outbox := Outbox.add st.outbox now "to_user" msg_chat_id user_id
            msg_message_id (some topic_id) })

/-- `job_process_outbox(ctx)`: fetch the due pending entries and, for each,
attempt redelivery through the transport (`bot.copy_message` with the
entry's stored coordinates — abstracted as the `transport` oracle); on
success `Outbox.mark_sent(id)`, on a raised exception
`Outbox.mark_failed(id, error)`. The chats, sent_messages and messages
tables are not touched. -/
def job_process_outbox (transport : OutboxRow → Except String Unit) (now : Int)
    (st : SystemState) : SystemState :=
  (Outbox.get_pending st.outbox now).foldl
    (fun s item =>
      match transport item with
      | .ok _ => { s with outbox := Outbox.mark_sent s.outbox item.id }
      | .error e => { s with outbox := Outbox.mark_failed s.outbox item.id e now })
    st

/-! ### Single-conversation operation sequences -/

/-- The three operations of claim C6 on one conversation row: an inbound
message (`Chat.new_message`), a successful outbound reply
(`Chat.mark_answered`) and a read (`Chat.mark_read`). -/
inductive RelayOp where
  | inbound (now : Int) (preview msg_type : String)
  | answered (now : Int)
  | readOp
deriving Repr, DecidableEq

/-- Apply one `RelayOp` to a conversation row, via the row transformations
of the corresponding Chat operations. -/
def applyRelayOp (op : RelayOp) (r : ChatRow) : ChatRow :=
  match op with
  | .inbound now p t => Chat.new_message_row now p t r
  | .answered now => Chat.mark_answered_row now r
  | .readOp => Chat.mark_read_row r

/-- Apply a sequence of `RelayOp`s, left to right. -/
def applyRelayOps (ops : List RelayOp) (r : ChatRow) : ChatRow :=
  ops.foldl (fun r op => applyRelayOp op r) r

/-- Number of inbound messages since the last reset (`mark_read` or
`mark_answered`) in a sequence of operations; every reset coincides with a
transition to `read`/`answered` whenever the count was nonzero. -/
def inbound_since_reset (ops : List RelayOp) : Nat :=
  ops.foldl
    (fun acc op =>
      match op with
      | .inbound _ _ _ => acc + 1
      | _ => 0)
    0

/-- Every mutation of one conversation row issued by the Chat manager of
bot.py (used for reachability in claim C8). -/
inductive ChatMut where
  | newMessage (now : Int) (preview msg_type : String)
  | markAnswered (now : Int)
  | markRead
  | markUnread
  | setPriority (p : String)
  | archiveRow
  | snoozeRow (now hours : Int)
  | doneFollowup
deriving Repr, DecidableEq

/-- Apply one Chat mutation to a conversation row. -/
def applyMut (m : ChatMut) (r : ChatRow) : ChatRow :=
  match m with
  | .newMessage now p t => Chat.new_message_row now p t r
  | .markAnswered now => Chat.mark_answered_row now r
  | .markRead => Chat.mark_read_row r
  | .markUnread => Chat.mark_unread_row r
  | .setPriority p => Chat.set_priority_row p r
  | .archiveRow => Chat.archive_row r
  | .snoozeRow now h => Chat.snooze_row now h r
  | .doneFollowup => Chat.done_followup_row r

/-- Apply a sequence of Chat mutations, left to right. -/
def applyMuts (ms : List ChatMut) (r : ChatRow) : ChatRow :=
  ms.foldl (fun r m => applyMut m r) r

/-- Iterate `Outbox.mark_failed` on one entry at the given sequence of times
(one call per consecutive delivery failure of that entry). -/
def failTimes (outbox_id : Nat) (error : String) : List Int → OutboxState → OutboxState
  | [], st => st
  | t :: ts, st => failTimes outbox_id error ts (Outbox.mark_failed st outbox_id error t)

/-- Row-level iteration of `Outbox.mark_failed_row`. -/
def failRowTimes (error : String) : List Int → OutboxRow → OutboxRow
  | [], r => r
  | t :: ts, r => failRowTimes error ts (Outbox.mark_failed_row error t r)

/-- Every row of the outbox with the given id has been marked `sent`. -/
def all_sent_for (outbox_id : Nat) (st : OutboxState) : Prop :=
  ∀ r ∈ st.rows, r.id = outbox_id → r.status = "sent"

/-- Concrete pending `to_topic` outbox entry used by the C1 witness. -/
def c1_entry : OutboxRow :=
  { id := 0, direction := "to_topic", from_chat_id := 7, to_chat_id := -100,
    message_id := 41, topic_id := some 55, retry_count := 0, next_retry_at := some 20,
    status := "pending", error := none, created_at := 20 }

/-- Concrete system state holding only `c1_entry`, used by the C1 witness. -/
def c1_wstate : SystemState :=
  { chats := [], outbox := ⟨[c1_entry], 1⟩, sent_messages := ⟨[], 0⟩, messages := [] }

/-- Concrete `answered` conversation used by the C1 counterexample. -/
def c1_chat : ChatRow :=
  { user_id := 7, username := "u", first_name := "f", last_name := "l",
    topic_id := some 55, status := "answered", priority := "normal", unread_count := 0,
    last_message_preview := none, last_message_type := none, last_message_at := some 5,
    last_reply_at := some 10, created_at := 0, is_archived := 0,
    snoozed_until := none, followup_stage := 0, followup_done := 0 }

/-- Concrete system state holding only `c1_chat`, used by the C1
counterexample. -/
def c1_cstate : SystemState :=
  { chats := [c1_chat], outbox := ⟨[], 0⟩, sent_messages := ⟨[], 0⟩, messages := [] }

/-- Apply a sequence of `save_message_mapping` inserts
(user, topic message id, user message id). -/
def applyInserts (l : List (Int × Int × Int)) (st : MapState) : MapState :=
  l.foldl (fun st x => save_message_mapping st x.1 x.2.1 x.2.2) st

/-- The rows produced by a run of inserts that never triggers the prune:
consecutive ids starting at `k`. -/
def seqRows (k : Nat) : List (Int × Int × Int) → List SentRow
  | [] => []
  | x :: xs =>
    { id := k, user_id := x.1, topic_msg_id := x.2.1, user_msg_id := x.2.2 } :: seqRows (k + 1) xs

/-- Well-formedness of the mapping table: ids below the counter and unique. -/
def MapWF (st : MapState) : Prop :=
  (∀ r ∈ st.rows, r.id < st.next_id) ∧ (st.rows.map (fun r => r.id)).Nodup

/-- The 101 inserts of the C9 witness minus the last one: user 1 inserts
topic 5 first, then 99 distinct topics. -/
def c9w_first : List (Int × Int × Int) :=
  (1, 5, 1) :: (List.range 99).map (fun i => (1, 1000 + (i : Int), 0))

/-- C9 witness insert sequence: 101 inserts for user 1 with pairwise
distinct topic ids; the first entry (topic 5) is pruned by the last insert. -/
def c9w_list : List (Int × Int × Int) := c9w_first ++ [(1, 1099, 0)]

/-- C9 counterexample insert sequence: as `c9w_list` but the 101st insert
reuses topic 5, so the pruned first entry's topic id still resolves. -/
def c9c_list : List (Int × Int × Int) := c9w_first ++ [(1, 5, 2)]

/-- The mapping rows after the first 100 inserts of `c9w_first`. -/
def c9_rows : List SentRow :=
  [
    SentRow.mk 0 1 5 1, SentRow.mk 1 1 1000 0, SentRow.mk 2 1 1001 0, SentRow.mk 3 1 1002 0,
    SentRow.mk 4 1 1003 0, SentRow.mk 5 1 1004 0, SentRow.mk 6 1 1005 0, SentRow.mk 7 1 1006 0,
    SentRow.mk 8 1 1007 0, SentRow.mk 9 1 1008 0, SentRow.mk 10 1 1009 0, SentRow.mk 11 1 1010 0,
    SentRow.mk 12 1 1011 0, SentRow.mk 13 1 1012 0, SentRow.mk 14 1 1013 0, SentRow.mk 15 1 1014 0,
    SentRow.mk 16 1 1015 0, SentRow.mk 17 1 1016 0, SentRow.mk 18 1 1017 0, SentRow.mk 19 1 1018 0,
    SentRow.mk 20 1 1019 0, SentRow.mk 21 1 1020 0, SentRow.mk 22 1 1021 0, SentRow.mk 23 1 1022 0,
    SentRow.mk 24 1 1023 0, SentRow.mk 25 1 1024 0, SentRow.mk 26 1 1025 0, SentRow.mk 27 1 1026 0,
    SentRow.mk 28 1 1027 0, SentRow.mk 29 1 1028 0, SentRow.mk 30 1 1029 0, SentRow.mk 31 1 1030 0,
    SentRow.mk 32 1 1031 0, SentRow.mk 33 1 1032 0, SentRow.mk 34 1 1033 0, SentRow.mk 35 1 1034 0,
    SentRow.mk 36 1 1035 0, SentRow.mk 37 1 1036 0, SentRow.mk 38 1 1037 0, SentRow.mk 39 1 1038 0,
    SentRow.mk 40 1 1039 0, SentRow.mk 41 1 1040 0, SentRow.mk 42 1 1041 0, SentRow.mk 43 1 1042 0,
    SentRow.mk 44 1 1043 0, SentRow.mk 45 1 1044 0, SentRow.mk 46 1 1045 0, SentRow.mk 47 1 1046 0,
    SentRow.mk 48 1 1047 0, SentRow.mk 49 1 1048 0, SentRow.mk 50 1 1049 0, SentRow.mk 51 1 1050 0,
    SentRow.mk 52 1 1051 0, SentRow.mk 53 1 1052 0, SentRow.mk 54 1 1053 0, SentRow.mk 55 1 1054 0,
    SentRow.mk 56 1 1055 0, SentRow.mk 57 1 1056 0, SentRow.mk 58 1 1057 0, SentRow.mk 59 1 1058 0,
    SentRow.mk 60 1 1059 0, SentRow.mk 61 1 1060 0, SentRow.mk 62 1 1061 0, SentRow.mk 63 1 1062 0,
    SentRow.mk 64 1 1063 0, SentRow.mk 65 1 1064 0, SentRow.mk 66 1 1065 0, SentRow.mk 67 1 1066 0,
    SentRow.mk 68 1 1067 0, SentRow.mk 69 1 1068 0, SentRow.mk 70 1 1069 0, SentRow.mk 71 1 1070 0,
    SentRow.mk 72 1 1071 0, SentRow.mk 73 1 1072 0, SentRow.mk 74 1 1073 0, SentRow.mk 75 1 1074 0,
    SentRow.mk 76 1 1075 0, SentRow.mk 77 1 1076 0, SentRow.mk 78 1 1077 0, SentRow.mk 79 1 1078 0,
    SentRow.mk 80 1 1079 0, SentRow.mk 81 1 1080 0, SentRow.mk 82 1 1081 0, SentRow.mk 83 1 1082 0,
    SentRow.mk 84 1 1083 0, SentRow.mk 85 1 1084 0, SentRow.mk 86 1 1085 0, SentRow.mk 87 1 1086 0,
    SentRow.mk 88 1 1087 0, SentRow.mk 89 1 1088 0, SentRow.mk 90 1 1089 0, SentRow.mk 91 1 1090 0,
    SentRow.mk 92 1 1091 0, SentRow.mk 93 1 1092 0, SentRow.mk 94 1 1093 0, SentRow.mk 95 1 1094 0,
    SentRow.mk 96 1 1095 0, SentRow.mk 97 1 1096 0, SentRow.mk 98 1 1097 0, SentRow.mk 99 1 1098 0
  ]

/-! ### Helper lemmas -/

theorem applyRelayOps_append (ops : List RelayOp) (op : RelayOp) (r : ChatRow) :
    applyRelayOps (ops ++ [op]) r = applyRelayOp op (applyRelayOps ops r) := by
  simp [applyRelayOps]

theorem inbound_since_reset_append (ops : List RelayOp) (op : RelayOp) :
    inbound_since_reset (ops ++ [op]) =
      match op with
      | .inbound _ _ _ => inbound_since_reset ops + 1
      | _ => 0 := by
  simp [inbound_since_reset]

/-- The status/unread invariant of claim C8: a `read` conversation has
`unread_count = 0`. Each Chat mutation preserves it. -/
theorem applyMut_read_inv (m : ChatMut) (r : ChatRow)
    (h : r.status = "read" → r.unread_count = 0) :
    (applyMut m r).status = "read" → (applyMut m r).unread_count = 0 := by
  cases m <;>
    simp [applyMut, Chat.new_message_row, Chat.mark_answered_row, Chat.mark_read_row,
      Chat.mark_unread_row, Chat.set_priority_row, Chat.archive_row, Chat.snooze_row,
      Chat.done_followup_row] <;>
    intro hs
  · exact h hs
  · exact h hs
  · exact h hs

theorem applyMuts_read_inv (ms : List ChatMut) (r : ChatRow)
    (h : r.status = "read" → r.unread_count = 0) :
    (applyMuts ms r).status = "read" → (applyMuts ms r).unread_count = 0 := by
  induction ms generalizing r with
  | nil => exact h
  | cons m ms ih => exact ih (applyMut m r) (applyMut_read_inv m r h)

/-! ### Claim theorems (first batch) -/

/-- C7: on every existing conversation row, `Chat.new_message` sets status
to `unread`, increments `unread_count` by exactly 1, resets
`followup_stage` and `followup_done` to 0 and clears `snoozed_until`;
the table update applies exactly this transformation to the rows of the
given user. -/
theorem C7_record_inbound_supersedes (db : List ChatRow) (user_id now : Int)
    (preview msg_type : String) :
    Chat.new_message db user_id now preview msg_type =
      db.map (fun r =>
        if r.user_id == user_id then Chat.new_message_row now preview msg_type r else r) ∧
    ∀ r : ChatRow,
      (Chat.new_message_row now preview msg_type r).status = "unread" ∧
      (Chat.new_message_row now preview msg_type r).unread_count = r.unread_count + 1 ∧
      (Chat.new_message_row now preview msg_type r).followup_stage = 0 ∧
      (Chat.new_message_row now preview msg_type r).followup_done = 0 ∧
      (Chat.new_message_row now preview msg_type r).snoozed_until = none :=
  ⟨rfl, fun _ => ⟨rfl, rfl, rfl, rfl, rfl⟩⟩

/-- C10: `Chat.archive` sets `is_archived` to 1 and status to `closed` and
preserves every other field of the row (`unread_count`, `priority`,
`snoozed_until`, `followup_stage`, `followup_done`, all timestamps and
identity fields); the table update only rewrites the rows of the given
user. In particular a conversation archived while `unread` keeps its
unread count. -/
theorem C10_archive_frame (db : List ChatRow) (user_id : Int) :
    Chat.archive db user_id =
      db.map (fun r => if r.user_id == user_id then Chat.archive_row r else r) ∧
    ∀ r : ChatRow,
      (Chat.archive_row r).is_archived = 1 ∧
      (Chat.archive_row r).status = "closed" ∧
      (Chat.archive_row r).unread_count = r.unread_count ∧
      (Chat.archive_row r).priority = r.priority ∧
      (Chat.archive_row r).snoozed_until = r.snoozed_until ∧
      (Chat.archive_row r).followup_stage = r.followup_stage ∧
      (Chat.archive_row r).followup_done = r.followup_done ∧
      (Chat.archive_row r).last_message_at = r.last_message_at ∧
      (Chat.archive_row r).last_reply_at = r.last_reply_at ∧
      (Chat.archive_row r).created_at = r.created_at ∧
      (Chat.archive_row r).user_id = r.user_id ∧
      (Chat.archive_row r).username = r.username ∧
      (Chat.archive_row r).first_name = r.first_name ∧
      (Chat.archive_row r).last_name = r.last_name ∧
      (Chat.archive_row r).topic_id = r.topic_id ∧
      (Chat.archive_row r).last_message_preview = r.last_message_preview ∧
      (Chat.archive_row r).last_message_type = r.last_message_type :=
  ⟨rfl, fun _ =>
    ⟨rfl, rfl, rfl, rfl, rfl, rfl, rfl, rfl, rfl, rfl, rfl, rfl, rfl, rfl, rfl, rfl, rfl⟩⟩

/-- C5: when the transport `copy_message` raises during an immediate relay,
`forward_to_topic` returns `False` and `forward_to_user` returns `None`,
the chats, sent_messages and messages tables are left unchanged, and
exactly one pending outbox entry is appended with the corresponding
direction (`to_topic` / `to_user`) and the message's coordinates. -/
theorem C5_failed_relay_no_mutation (support_group_id : Int) (err : String)
    (msg_chat_id msg_message_id topic_id user_id : Int)
    (preview msg_type : String) (now : Int) (st : SystemState) :
    (forward_to_topic support_group_id (.error err) msg_chat_id msg_message_id topic_id
        user_id preview msg_type now st).1 = false ∧
    (forward_to_topic support_group_id (.error err) msg_chat_id msg_message_id topic_id
        user_id preview msg_type now st).2.chats = st.chats ∧
    (forward_to_topic support_group_id (.error err) msg_chat_id msg_message_id topic_id
        user_id preview msg_type now st).2.sent_messages = st.sent_messages ∧
    (forward_to_topic support_group_id (.error err) msg_chat_id msg_message_id topic_id
        user_id preview msg_type now st).2.messages = st.messages ∧
    (forward_to_topic support_group_id (.error err) msg_chat_id msg_message_id topic_id
        user_id preview msg_type now st).2.outbox.rows =
      st.outbox.rows ++
        [{ id := st.outbox.next_id, direction := "to_topic", from_chat_id := msg_chat_id,
           to_chat_id := support_group_id, message_id := msg_message_id,
           topic_id := some topic_id, retry_count := 0, next_retry_at := some now,
           status := "pending", error := none, created_at := now }] ∧
    (forward_to_user (.error err) msg_chat_id msg_message_id user_id topic_id
        preview msg_type now st).1 = none ∧
    (forward_to_user (.error err) msg_chat_id msg_message_id user_id topic_id
        preview msg_type now st).2.chats = st.chats ∧
    (forward_to_user (.error err) msg_chat_id msg_message_id user_id topic_id
        preview msg_type now st).2.sent_messages = st.sent_messages ∧
    (forward_to_user (.error err) msg_chat_id msg_message_id user_id topic_id
        preview msg_type now st).2.messages = st.messages ∧
    (forward_to_user (.error err) msg_chat_id msg_message_id user_id topic_id
        preview msg_type now st).2.outbox.rows =
      st.outbox.rows ++
        [{ id := st.outbox.next_id, direction := "to_user", from_chat_id := msg_chat_id,
           to_chat_id := user_id, message_id := msg_message_id,
           topic_id := some topic_id, retry_count := 0, next_retry_at := some now,
           status := "pending", error := none, created_at := now }] :=
  ⟨rfl, rfl, rfl, rfl, rfl, rfl, rfl, rfl, rfl, rfl⟩

/-- C6: over any sequence of inbound messages, successful outbound replies
and reads on one conversation, `unread_count` stays non-negative and
equals the number of inbound messages recorded since the last reset
(`mark_read` / `mark_answered`, the operations that transition the status
to `read` / `answered`), starting from any row with `unread_count = 0`. -/
theorem C6_unread_count_invariant (ops : List RelayOp) (r0 : ChatRow)
    (h0 : r0.unread_count = 0) :
    (applyRelayOps ops r0).unread_count = (inbound_since_reset ops : Int) ∧
    0 ≤ (applyRelayOps ops r0).unread_count := by
  have key : (applyRelayOps ops r0).unread_count = (inbound_since_reset ops : Int) := by
    induction ops using List.reverseRecOn with
    | nil => simpa [applyRelayOps, inbound_since_reset] using h0
    | append_singleton ops op ih =>
      rw [applyRelayOps_append, inbound_since_reset_append]
      cases op with
      | inbound now p t =>
        simp [applyRelayOp, Chat.new_message_row, ih]
      | answered now =>
        simp [applyRelayOp, Chat.mark_answered_row]
      | readOp =>
        simp [applyRelayOp, Chat.mark_read_row]
  exact ⟨key, by rw [key]; exact Int.natCast_nonneg _⟩

/-- C6 witness: a concrete run (two inbound, an answer, one more inbound)
ends with `unread_count = 1 =` the number of inbound messages since the
answer. -/
theorem C6_unread_count_invariant_witness :
    (Chat.create_row 7 "u" "f" "l" 55 0).unread_count = 0 ∧
    ((applyRelayOps
          [.inbound 1 "a" "text", .inbound 2 "b" "text", .answered 3, .inbound 4 "c" "text"]
          (Chat.create_row 7 "u" "f" "l" 55 0)).unread_count =
        (inbound_since_reset
            [.inbound 1 "a" "text", .inbound 2 "b" "text", .answered 3,
              .inbound 4 "c" "text"] : Int) ∧
      0 ≤ (applyRelayOps
          [.inbound 1 "a" "text", .inbound 2 "b" "text", .answered 3, .inbound 4 "c" "text"]
          (Chat.create_row 7 "u" "f" "l" 55 0)).unread_count) :=
  ⟨by decide,
    C6_unread_count_invariant
      [.inbound 1 "a" "text", .inbound 2 "b" "text", .answered 3, .inbound 4 "c" "text"]
      (Chat.create_row 7 "u" "f" "l" 55 0) (by decide)⟩

/-- C8: `Chat.mark_read` is idempotent on every row, and on every
conversation reachable from a freshly created row through the Chat
mutations, being in status `read` makes a further `mark_read` a complete
no-op (both `status` and `unread_count`, indeed the whole row, are
unchanged). -/
theorem C8_mark_read_idempotent :
    (∀ r : ChatRow, Chat.mark_read_row (Chat.mark_read_row r) = Chat.mark_read_row r) ∧
    ∀ (ms : List ChatMut) (user_id : Int) (username first_name last_name : String)
      (topic_id now : Int),
      (applyMuts ms (Chat.create_row user_id username first_name last_name topic_id now)).status
          = "read" →
      Chat.mark_read_row
          (applyMuts ms (Chat.create_row user_id username first_name last_name topic_id now)) =
        applyMuts ms (Chat.create_row user_id username first_name last_name topic_id now) := by
  constructor
  · intro r
    by_cases h : r.status = "unread" <;>
      simp [Chat.mark_read_row, h]
  · intro ms user_id username first_name last_name topic_id now hread
    have hzero : (applyMuts ms
        (Chat.create_row user_id username first_name last_name topic_id now)).unread_count = 0 := by
      refine applyMuts_read_inv ms _ ?_ hread
      intro h
      simp [Chat.create_row] at h
    set r := applyMuts ms (Chat.create_row user_id username first_name last_name topic_id now)
    have hne : (r.status == "unread") = false := by
      rw [hread]; decide
    have h1 : Chat.mark_read_row r = { r with unread_count := 0 } := by
      simp [Chat.mark_read_row, hne]
    rw [h1, ← hzero]

/-- C8 witness: after `[markRead]` from a fresh row the status is `read`
and a second `mark_read` changes nothing. -/
theorem C8_mark_read_idempotent_witness :
    (∀ r : ChatRow, Chat.mark_read_row (Chat.mark_read_row r) = Chat.mark_read_row r) ∧
    ((applyMuts [.markRead] (Chat.create_row 7 "u" "f" "l" 55 0)).status = "read" ∧
      Chat.mark_read_row (applyMuts [.markRead] (Chat.create_row 7 "u" "f" "l" 55 0)) =
        applyMuts [.markRead] (Chat.create_row 7 "u" "f" "l" 55 0)) :=
  ⟨C8_mark_read_idempotent.1,
    by decide,
    C8_mark_read_idempotent.2 [.markRead] 7 "u" "f" "l" 55 0 (by decide)⟩

/-! ### Follow-up bucket characterization -/

namespace Chat

/-- The classification fold is the three filters by the branch conditions. -/
theorem foldl_classify (now : Int) (l : List ChatRow) (acc : FollowupBuckets) :
    l.foldl (classify_step now) acc =
      ⟨acc.due ++ l.filter (bucket_due now),
        acc.urgent ++ l.filter (bucket_urgent now),
        acc.overdue ++ l.filter (bucket_overdue now)⟩ := by
  induction l generalizing acc with
  | nil => simp
  | cons c l ih =>
    rw [List.foldl_cons, ih]
    cases hlr : c.last_reply_at with
    | none =>
      simp [classify_step, bucket_due, bucket_urgent, bucket_overdue, hlr, List.filter_cons]
    | some t =>
      by_cases h3 : hours_since now t ≥ followup_threshold c.priority * 3
      · simp [classify_step, bucket_due, bucket_urgent, bucket_overdue, hlr, h3,
          List.filter_cons]
      · by_cases h15 : hours_since now t ≥ followup_threshold c.priority * (3 / 2)
        · simp [classify_step, bucket_due, bucket_urgent, bucket_overdue, hlr, h3, h15,
            List.filter_cons]
        · by_cases h1 : hours_since now t ≥ followup_threshold c.priority
          · simp [classify_step, bucket_due, bucket_urgent, bucket_overdue, hlr, h3, h15, h1,
              List.filter_cons]
          · simp [classify_step, bucket_due, bucket_urgent, bucket_overdue, hlr, h3, h15, h1,
              List.filter_cons]

/-- `get_followups_due` as three filters over the selected rows. -/
theorem get_followups_due_eq (db : List ChatRow) (now : Int) :
    get_followups_due db now =
      ⟨(followup_rows db).filter (bucket_due now),
        (followup_rows db).filter (bucket_urgent now),
        (followup_rows db).filter (bucket_overdue now)⟩ := by
  unfold get_followups_due
  rw [foldl_classify]
  simp

end Chat

/-! ### Claim theorems: follow-up scheduling -/

/-- C4: every `answered`, non-archived, not-followup-done conversation with
`last_reply_at = t` is bucketed by `get_followups_due` by the elapsed hours
`h` against the priority threshold `T` (12 for `vip`, else 24): `overdue`
iff `h ≥ 3T`, otherwise `urgent` iff `h ≥ 1.5T`, otherwise `due` iff
`h ≥ T`, otherwise nothing; it never lies in two buckets. -/
theorem C4_followup_buckets (db : List ChatRow) (now : Int) (c : ChatRow) (t : Int)
    (hmem : c ∈ db) (hst : c.status = "answered") (har : c.is_archived = 0)
    (hfd : c.followup_done = 0) (hlr : c.last_reply_at = some t) :
    Chat.followup_threshold c.priority = (if c.priority = "vip" then 12 else 24) ∧
    (c ∈ (Chat.get_followups_due db now).overdue ↔
      Chat.hours_since now t ≥ Chat.followup_threshold c.priority * 3) ∧
    (c ∈ (Chat.get_followups_due db now).urgent ↔
      (¬Chat.hours_since now t ≥ Chat.followup_threshold c.priority * 3 ∧
        Chat.hours_since now t ≥ Chat.followup_threshold c.priority * (3 / 2))) ∧
    (c ∈ (Chat.get_followups_due db now).due ↔
      (¬Chat.hours_since now t ≥ Chat.followup_threshold c.priority * 3 ∧
        ¬Chat.hours_since now t ≥ Chat.followup_threshold c.priority * (3 / 2) ∧
        Chat.hours_since now t ≥ Chat.followup_threshold c.priority)) ∧
    ¬(c ∈ (Chat.get_followups_due db now).due ∧ c ∈ (Chat.get_followups_due db now).urgent) ∧
    ¬(c ∈ (Chat.get_followups_due db now).due ∧ c ∈ (Chat.get_followups_due db now).overdue) ∧
    ¬(c ∈ (Chat.get_followups_due db now).urgent ∧ c ∈ (Chat.get_followups_due db now).overdue) := by
  have hrows : c ∈ Chat.followup_rows db := by
    unfold Chat.followup_rows
    rw [List.mem_insertionSort]
    refine List.mem_filter.mpr ⟨hmem, ?_⟩
    simp [hst, har, hfd, hlr]
  rw [Chat.get_followups_due_eq]
  have hover : c ∈ (Chat.followup_rows db).filter (Chat.bucket_overdue now) ↔
      Chat.hours_since now t ≥ Chat.followup_threshold c.priority * 3 := by
    rw [List.mem_filter]
    simp [hrows, Chat.bucket_overdue, hlr]
  have hurg : c ∈ (Chat.followup_rows db).filter (Chat.bucket_urgent now) ↔
      (¬Chat.hours_since now t ≥ Chat.followup_threshold c.priority * 3 ∧
        Chat.hours_since now t ≥ Chat.followup_threshold c.priority * (3 / 2)) := by
    rw [List.mem_filter]
    simp [hrows, Chat.bucket_urgent, hlr]
  have hdue : c ∈ (Chat.followup_rows db).filter (Chat.bucket_due now) ↔
      (¬Chat.hours_since now t ≥ Chat.followup_threshold c.priority * 3 ∧
        ¬Chat.hours_since now t ≥ Chat.followup_threshold c.priority * (3 / 2) ∧
        Chat.hours_since now t ≥ Chat.followup_threshold c.priority) := by
    rw [List.mem_filter]
    simp [hrows, Chat.bucket_due, hlr]
  refine ⟨?_, hover, hurg, hdue, ?_, ?_, ?_⟩
  · by_cases hv : c.priority = "vip" <;>
      simp [Chat.followup_threshold, FOLLOWUP_HOURS_VIP, FOLLOWUP_HOURS_NORMAL, hv]
  · rw [hdue, hurg]; tauto
  · rw [hdue, hover]; tauto
  · rw [hurg, hover]; tauto

/-- C4 witness: a normal-priority conversation answered 25 hours ago
(threshold 24h) lands exactly in `due`. -/
theorem C4_followup_buckets_witness :
    ({ user_id := 7, username := "u", first_name := "f", last_name := "l",
       topic_id := some 55, status := "answered", priority := "normal", unread_count := 0,
       last_message_preview := none, last_message_type := none, last_message_at := some 0,
       last_reply_at := some 0, created_at := 0, is_archived := 0,
       snoozed_until := none, followup_stage := 0, followup_done := 0 } : ChatRow) ∈
        [({ user_id := 7, username := "u", first_name := "f", last_name := "l",
            topic_id := some 55, status := "answered", priority := "normal", unread_count := 0,
            last_message_preview := none, last_message_type := none, last_message_at := some 0,
            last_reply_at := some 0, created_at := 0, is_archived := 0,
            snoozed_until := none, followup_stage := 0, followup_done := 0 } : ChatRow)] ∧
    (Chat.followup_threshold "normal" = (if ("normal" : String) = "vip" then 12 else 24) ∧
      (({ user_id := 7, username := "u", first_name := "f", last_name := "l",
          topic_id := some 55, status := "answered", priority := "normal", unread_count := 0,
          last_message_preview := none, last_message_type := none, last_message_at := some 0,
          last_reply_at := some 0, created_at := 0, is_archived := 0,
          snoozed_until := none, followup_stage := 0, followup_done := 0 } : ChatRow) ∈
          (Chat.get_followups_due
            [{ user_id := 7, username := "u", first_name := "f", last_name := "l",
               topic_id := some 55, status := "answered", priority := "normal", unread_count := 0,
               last_message_preview := none, last_message_type := none, last_message_at := some 0,
               last_reply_at := some 0, created_at := 0, is_archived := 0,
               snoozed_until := none, followup_stage := 0, followup_done := 0 }] 90000).overdue ↔
        Chat.hours_since 90000 0 ≥ Chat.followup_threshold "normal" * 3) ∧
      (({ user_id := 7, username := "u", first_name := "f", last_name := "l",
          topic_id := some 55, status := "answered", priority := "normal", unread_count := 0,
          last_message_preview := none, last_message_type := none, last_message_at := some 0,
          last_reply_at := some 0, created_at := 0, is_archived := 0,
          snoozed_until := none, followup_stage := 0, followup_done := 0 } : ChatRow) ∈
          (Chat.get_followups_due
            [{ user_id := 7, username := "u", first_name := "f", last_name := "l",
               topic_id := some 55, status := "answered", priority := "normal", unread_count := 0,
               last_message_preview := none, last_message_type := none, last_message_at := some 0,
               last_reply_at := some 0, created_at := 0, is_archived := 0,
               snoozed_until := none, followup_stage := 0, followup_done := 0 }] 90000).urgent ↔
        (¬Chat.hours_since 90000 0 ≥ Chat.followup_threshold "normal" * 3 ∧
          Chat.hours_since 90000 0 ≥ Chat.followup_threshold "normal" * (3 / 2))) ∧
      (({ user_id := 7, username := "u", first_name := "f", last_name := "l",
          topic_id := some 55, status := "answered", priority := "normal", unread_count := 0,
          last_message_preview := none, last_message_type := none, last_message_at := some 0,
          last_reply_at := some 0, created_at := 0, is_archived := 0,
          snoozed_until := none, followup_stage := 0, followup_done := 0 } : ChatRow) ∈
          (Chat.get_followups_due
            [{ user_id := 7, username := "u", first_name := "f", last_name := "l",
               topic_id := some 55, status := "answered", priority := "normal", unread_count := 0,
               last_message_preview := none, last_message_type := none, last_message_at := some 0,
               last_reply_at := some 0, created_at := 0, is_archived := 0,
               snoozed_until := none, followup_stage := 0, followup_done := 0 }] 90000).due ↔
        (¬Chat.hours_since 90000 0 ≥ Chat.followup_threshold "normal" * 3 ∧
          ¬Chat.hours_since 90000 0 ≥ Chat.followup_threshold "normal" * (3 / 2) ∧
          Chat.hours_since 90000 0 ≥ Chat.followup_threshold "normal")) ∧
      ¬(({ user_id := 7, username := "u", first_name := "f", last_name := "l",
           topic_id := some 55, status := "answered", priority := "normal", unread_count := 0,
           last_message_preview := none, last_message_type := none, last_message_at := some 0,
           last_reply_at := some 0, created_at := 0, is_archived := 0,
           snoozed_until := none, followup_stage := 0, followup_done := 0 } : ChatRow) ∈
          (Chat.get_followups_due
            [{ user_id := 7, username := "u", first_name := "f", last_name := "l",
               topic_id := some 55, status := "answered", priority := "normal", unread_count := 0,
               last_message_preview := none, last_message_type := none, last_message_at := some 0,
               last_reply_at := some 0, created_at := 0, is_archived := 0,
               snoozed_until := none, followup_stage := 0, followup_done := 0 }] 90000).due ∧
        ({ user_id := 7, username := "u", first_name := "f", last_name := "l",
           topic_id := some 55, status := "answered", priority := "normal", unread_count := 0,
           last_message_preview := none, last_message_type := none, last_message_at := some 0,
           last_reply_at := some 0, created_at := 0, is_archived := 0,
           snoozed_until := none, followup_stage := 0, followup_done := 0 } : ChatRow) ∈
          (Chat.get_followups_due
            [{ user_id := 7, username := "u", first_name := "f", last_name := "l",
               topic_id := some 55, status := "answered", priority := "normal", unread_count := 0,
               last_message_preview := none, last_message_type := none, last_message_at := some 0,
               last_reply_at := some 0, created_at := 0, is_archived := 0,
               snoozed_until := none, followup_stage := 0, followup_done := 0 }] 90000).urgent) ∧
      ¬(({ user_id := 7, username := "u", first_name := "f", last_name := "l",
           topic_id := some 55, status := "answered", priority := "normal", unread_count := 0,
           last_message_preview := none, last_message_type := none, last_message_at := some 0,
           last_reply_at := some 0, created_at := 0, is_archived := 0,
           snoozed_until := none, followup_stage := 0, followup_done := 0 } : ChatRow) ∈
          (Chat.get_followups_due
            [{ user_id := 7, username := "u", first_name := "f", last_name := "l",
               topic_id := some 55, status := "answered", priority := "normal", unread_count := 0,
               last_message_preview := none, last_message_type := none, last_message_at := some 0,
               last_reply_at := some 0, created_at := 0, is_archived := 0,
               snoozed_until := none, followup_stage := 0, followup_done := 0 }] 90000).due ∧
        ({ user_id := 7, username := "u", first_name := "f", last_name := "l",
           topic_id := some 55, status := "answered", priority := "normal", unread_count := 0,
           last_message_preview := none, last_message_type := none, last_message_at := some 0,
           last_reply_at := some 0, created_at := 0, is_archived := 0,
           snoozed_until := none, followup_stage := 0, followup_done := 0 } : ChatRow) ∈
          (Chat.get_followups_due
            [{ user_id := 7, username := "u", first_name := "f", last_name := "l",
               topic_id := some 55, status := "answered", priority := "normal", unread_count := 0,
               last_message_preview := none, last_message_type := none, last_message_at := some 0,
               last_reply_at := some 0, created_at := 0, is_archived := 0,
               snoozed_until := none, followup_stage := 0, followup_done := 0 }] 90000).overdue) ∧
      ¬(({ user_id := 7, username := "u", first_name := "f", last_name := "l",
           topic_id := some 55, status := "answered", priority := "normal", unread_count := 0,
           last_message_preview := none, last_message_type := none, last_message_at := some 0,
           last_reply_at := some 0, created_at := 0, is_archived := 0,
           snoozed_until := none, followup_stage := 0, followup_done := 0 } : ChatRow) ∈
          (Chat.get_followups_due
            [{ user_id := 7, username := "u", first_name := "f", last_name := "l",
               topic_id := some 55, status := "answered", priority := "normal", unread_count := 0,
               last_message_preview := none, last_message_type := none, last_message_at := some 0,
               last_reply_at := some 0, created_at := 0, is_archived := 0,
               snoozed_until := none, followup_stage := 0, followup_done := 0 }] 90000).urgent ∧
        ({ user_id := 7, username := "u", first_name := "f", last_name := "l",
           topic_id := some 55, status := "answered", priority := "normal", unread_count := 0,
           last_message_preview := none, last_message_type := none, last_message_at := some 0,
           last_reply_at := some 0, created_at := 0, is_archived := 0,
           snoozed_until := none, followup_stage := 0, followup_done := 0 } : ChatRow) ∈
          (Chat.get_followups_due
            [{ user_id := 7, username := "u", first_name := "f", last_name := "l",
               topic_id := some 55, status := "answered", priority := "normal", unread_count := 0,
               last_message_preview := none, last_message_type := none, last_message_at := some 0,
               last_reply_at := some 0, created_at := 0, is_archived := 0,
               snoozed_until := none, followup_stage := 0, followup_done := 0 }] 90000).overdue)) :=
  ⟨List.mem_singleton.mpr rfl,
    C4_followup_buckets
      [{ user_id := 7, username := "u", first_name := "f", last_name := "l",
         topic_id := some 55, status := "answered", priority := "normal", unread_count := 0,
         last_message_preview := none, last_message_type := none, last_message_at := some 0,
         last_reply_at := some 0, created_at := 0, is_archived := 0,
         snoozed_until := none, followup_stage := 0, followup_done := 0 }] 90000
      { user_id := 7, username := "u", first_name := "f", last_name := "l",
        topic_id := some 55, status := "answered", priority := "normal", unread_count := 0,
        last_message_preview := none, last_message_type := none, last_message_at := some 0,
        last_reply_at := some 0, created_at := 0, is_archived := 0,
        snoozed_until := none, followup_stage := 0, followup_done := 0 } 0
      (List.mem_singleton.mpr rfl) rfl rfl rfl rfl⟩

/-- C3 (code evaluation at the failing input): a conversation snoozed into
the future (`snoozed_until = 360000 > now = 90000`), answered 25 hours ago
at normal priority, is excluded from `get_unread` but still appears in the
`due` bucket of `get_followups_due` — the follow-up query has no
`snoozed_until` filter. -/
theorem C3_snoozed_followup_not_excluded :
    ({ user_id := 7, username := "u", first_name := "f", last_name := "l",
       topic_id := some 55, status := "answered", priority := "normal", unread_count := 0,
       last_message_preview := none, last_message_type := none, last_message_at := some 0,
       last_reply_at := some 0, created_at := 0, is_archived := 0,
       snoozed_until := some 360000, followup_stage := 0, followup_done := 0 } : ChatRow) ∈
      (Chat.get_followups_due
        [{ user_id := 7, username := "u", first_name := "f", last_name := "l",
           topic_id := some 55, status := "answered", priority := "normal", unread_count := 0,
           last_message_preview := none, last_message_type := none, last_message_at := some 0,
           last_reply_at := some 0, created_at := 0, is_archived := 0,
           snoozed_until := some 360000, followup_stage := 0, followup_done := 0 }] 90000).due ∧
    (90000 : Int) < 360000 ∧
    ({ user_id := 7, username := "u", first_name := "f", last_name := "l",
       topic_id := some 55, status := "answered", priority := "normal", unread_count := 0,
       last_message_preview := none, last_message_type := none, last_message_at := some 0,
       last_reply_at := some 0, created_at := 0, is_archived := 0,
       snoozed_until := some 360000, followup_stage := 0, followup_done := 0 } : ChatRow) ∉
      Chat.get_unread
        [{ user_id := 7, username := "u", first_name := "f", last_name := "l",
           topic_id := some 55, status := "answered", priority := "normal", unread_count := 0,
           last_message_preview := none, last_message_type := none, last_message_at := some 0,
           last_reply_at := some 0, created_at := 0, is_archived := 0,
           snoozed_until := some 360000, followup_stage := 0, followup_done := 0 }] 90000 := by
  refine ⟨?_, by norm_num, ?_⟩
  · rw [Chat.get_followups_due_eq]
    refine List.mem_filter.mpr ⟨?_, ?_⟩
    · unfold Chat.followup_rows
      rw [List.mem_insertionSort]
      exact List.mem_filter.mpr ⟨List.mem_singleton.mpr rfl, by decide⟩
    · rw [Chat.bucket_due]
      simp only [decide_eq_true_eq]
      have hne : ¬("normal" : String) = "vip" := by decide
      norm_num [Chat.hours_since, Chat.followup_threshold, FOLLOWUP_HOURS_NORMAL,
        FOLLOWUP_HOURS_VIP, hne]
  · unfold Chat.get_unread
    rw [List.mem_insertionSort]
    intro hmem
    have := (List.mem_filter.mp hmem).2
    simp at this

/-! ### Outbox retry/backoff -/

theorem updateWhere_eq_self (p : α → Bool) (f : α → α) (l : List α)
    (h : ∀ x ∈ l, p x = false) : updateWhere p f l = l := by
  induction l with
  | nil => rfl
  | cons x l ih =>
    have hx := h x (List.mem_cons_self x l)
    have hl := ih fun y hy => h y (List.mem_cons_of_mem x hy)
    simp [updateWhere, hx] at hl ⊢
    exact hl

theorem mark_failed_row_id (error : String) (t : Int) (r : OutboxRow) :
    (Outbox.mark_failed_row error t r).id = r.id := by
  simp only [Outbox.mark_failed_row]
  split <;> rfl

theorem mark_failed_append (l : List OutboxRow) (r : OutboxRow) (k : Nat)
    (i : Nat) (error : String) (t : Int)
    (hl : ∀ x ∈ l, (x.id == i) = false) (hr : (r.id == i) = true) :
    Outbox.mark_failed ⟨l ++ [r], k⟩ i error t =
      ⟨l ++ [Outbox.mark_failed_row error t r], k⟩ := by
  simp only [Outbox.mark_failed]
  congr 1
  unfold updateWhere
  rw [List.map_append]
  have h1 : l.map (fun x => if x.id == i then Outbox.mark_failed_row error t x else x) = l :=
    updateWhere_eq_self _ _ l hl
  rw [h1]
  simp only [List.map_cons, List.map_nil, hr, if_true]

theorem failTimes_append (i : Nat) (error : String) (ts : List Int) :
    ∀ (l : List OutboxRow) (r : OutboxRow) (k : Nat),
      (∀ x ∈ l, (x.id == i) = false) → (r.id == i) = true →
      failTimes i error ts ⟨l ++ [r], k⟩ = ⟨l ++ [failRowTimes error ts r], k⟩ := by
  induction ts with
  | nil => intro l r k hl hr; rfl
  | cons t ts ih =>
    intro l r k hl hr
    rw [failTimes, failRowTimes, mark_failed_append l r k i error t hl hr]
    exact ih l _ k hl (by rw [mark_failed_row_id]; exact hr)

/-- Status/count invariant of iterated `mark_failed_row`: starting from a
row whose `retry_count` is `n` and whose status is `failed` exactly when
`n ≥ 10`, after `m` further failures the count is `n + m` and the status
is `failed` exactly when `n + m ≥ 10`; the id is untouched. -/
theorem failRowTimes_spec (error : String) (ts : List Int) :
    ∀ (r : OutboxRow) (n : Nat),
      r.retry_count = (n : Int) →
      r.status = (if 10 ≤ n then "failed" else "pending") →
      (failRowTimes error ts r).retry_count = ((n + ts.length : Nat) : Int) ∧
      (failRowTimes error ts r).status =
        (if 10 ≤ n + ts.length then "failed" else "pending") ∧
      (failRowTimes error ts r).id = r.id := by
  induction ts with
  | nil =>
    intro r n hc hs
    simpa [failRowTimes] using ⟨hc, hs⟩
  | cons t ts ih =>
    intro r n hc hs
    rw [failRowTimes]
    have step : (Outbox.mark_failed_row error t r).retry_count = ((n + 1 : Nat) : Int) ∧
        (Outbox.mark_failed_row error t r).status =
          (if 10 ≤ n + 1 then "failed" else "pending") := by
      simp only [Outbox.mark_failed_row]
      by_cases h10 : r.retry_count + 1 ≥ 10
      · rw [if_pos h10]
        have h10n : 10 ≤ n + 1 := by rw [hc] at h10; omega
        refine ⟨?_, ?_⟩
        · show r.retry_count + 1 = ((n + 1 : Nat) : Int)
          rw [hc]; push_cast; ring
        · show "failed" = (if 10 ≤ n + 1 then "failed" else "pending")
          rw [if_pos h10n]
      · rw [if_neg h10]
        have h10n : ¬10 ≤ n + 1 := by rw [hc] at h10; omega
        refine ⟨?_, ?_⟩
        · show r.retry_count + 1 = ((n + 1 : Nat) : Int)
          rw [hc]; push_cast; ring
        · show r.status = (if 10 ≤ n + 1 then "failed" else "pending")
          rw [hs, if_neg h10n, if_neg (by omega)]
    have := ih (Outbox.mark_failed_row error t r) (n + 1) step.1 step.2
    refine ⟨?_, ?_, ?_⟩
    · rw [this.1]; congr 1; simp; omega
    · rw [this.2.1]; congr 2; simp; omega
    · rw [this.2.2, mark_failed_row_id]

/-- The backoff delay table lookup is monotone in the retry count (for
counts from 1 up), and clamps at the last entry. -/
theorem backoff_delay_mono (i j : Int) (hi : 1 ≤ i) (hij : i ≤ j) :
    Outbox.backoff_delay i ≤ Outbox.backoff_delay j := by
  unfold Outbox.backoff_delay
  have hmin : min (i - 1) 6 ≤ min (j - 1) 6 := min_le_min (by omega) le_rfl
  have hab : (min (i - 1) 6).toNat ≤ (min (j - 1) 6).toNat := Int.toNat_le_toNat hmin
  have hb6 : (min (j - 1) 6).toNat ≤ 6 := by
    have : min (j - 1) 6 ≤ 6 := min_le_right _ _
    omega
  set a := (min (i - 1) 6).toNat
  set b := (min (j - 1) 6).toNat
  clear_value a b
  have ha6 : a ≤ 6 := le_trans hab hb6
  interval_cases a <;> interval_cases b <;> first | decide | omega

/-- Every entry returned by `Outbox.get_pending` has status `pending`; in
particular a `failed` (or `sent`) entry is never returned. -/
theorem get_pending_status (st : OutboxState) (now : Int) :
    ∀ r ∈ Outbox.get_pending st now, r.status = "pending" := by
  intro r hr
  unfold Outbox.get_pending at hr
  have h1 := List.mem_of_mem_take hr
  rw [List.mem_insertionSort] at h1
  have h2 := (List.mem_filter.mp h1).2
  cases hnr : r.next_retry_at with
  | none => rw [hnr] at h2; simp at h2
  | some t => rw [hnr] at h2; simp at h2; exact h2.1

/-- C2: retries of one outbox entry escalate through the delay table and hit
the permanent-failure ceiling exactly at 10. For an entry freshly enqueued
by `Outbox.add` and failed `m` consecutive times: each failure while below
the ceiling sets `next_retry_at = now + backoff_delay(retry_count)` where
the table lookup `backoff_delay` is non-decreasing in the retry count (so
consecutive computed delays never shrink); the entry's `retry_count` is
`m` and its status is `failed` exactly when `m ≥ 10` — never before or
after; and a non-`pending` entry is never returned by `get_pending`, so
once `failed` it is excluded from every future drain. -/
theorem C2_backoff_monotone_and_ceiling (st : OutboxState) (now0 : Int)
    (direction : String) (from_chat_id to_chat_id message_id : Int)
    (topic_id : Option Int) (error : String) (ts : List Int)
    (hfresh : ∀ x ∈ st.rows, (x.id == st.next_id) = false) :
    (∀ (r : OutboxRow) (t : Int), r.retry_count + 1 < 10 →
      (Outbox.mark_failed_row error t r).retry_count = r.retry_count + 1 ∧
      (Outbox.mark_failed_row error t r).next_retry_at =
        some (t + Outbox.backoff_delay (r.retry_count + 1))) ∧
    (∀ i j : Int, 1 ≤ i → i ≤ j →
      Outbox.backoff_delay i ≤ Outbox.backoff_delay j) ∧
    (∃ rn : OutboxRow,
      (failTimes st.next_id error ts
          (Outbox.add st now0 direction from_chat_id to_chat_id message_id topic_id)).rows =
        st.rows ++ [rn] ∧
      rn.retry_count = (ts.length : Int) ∧
      rn.status = (if 10 ≤ ts.length then "failed" else "pending") ∧
      (10 ≤ ts.length → ∀ (st2 : OutboxState) (now2 : Int),
        rn ∉ Outbox.get_pending st2 now2)) := by
  refine ⟨?_, backoff_delay_mono, ?_⟩
  · intro r t hlt
    simp only [Outbox.mark_failed_row]
    rw [if_neg (by omega)]
    exact ⟨rfl, rfl⟩
  · have hshape :
        failTimes st.next_id error ts
            (Outbox.add st now0 direction from_chat_id to_chat_id message_id topic_id) =
          ⟨st.rows ++
            [failRowTimes error ts
              { id := st.next_id, direction := direction, from_chat_id := from_chat_id,
                to_chat_id := to_chat_id, message_id := message_id, topic_id := topic_id,
                retry_count := 0, next_retry_at := some now0, status := "pending",
                error := none, created_at := now0 }], st.next_id + 1⟩ := by
      unfold Outbox.add
      exact failTimes_append st.next_id error ts st.rows _ (st.next_id + 1) hfresh (by simp)
    refine ⟨failRowTimes error ts
        { id := st.next_id, direction := direction, from_chat_id := from_chat_id,
          to_chat_id := to_chat_id, message_id := message_id, topic_id := topic_id,
          retry_count := 0, next_retry_at := some now0, status := "pending",
          error := none, created_at := now0 }, ?_, ?_, ?_, ?_⟩
    · rw [hshape]
    · have := failRowTimes_spec error ts
        { id := st.next_id, direction := direction, from_chat_id := from_chat_id,
          to_chat_id := to_chat_id, message_id := message_id, topic_id := topic_id,
          retry_count := 0, next_retry_at := some now0, status := "pending",
          error := none, created_at := now0 } 0 (by simp) (by simp)
      simpa using this.1
    · have := failRowTimes_spec error ts
        { id := st.next_id, direction := direction, from_chat_id := from_chat_id,
          to_chat_id := to_chat_id, message_id := message_id, topic_id := topic_id,
          retry_count := 0, next_retry_at := some now0, status := "pending",
          error := none, created_at := now0 } 0 (by simp) (by simp)
      simpa using this.2.1
    · intro hceil st2 now2 hmem
      have hst := get_pending_status st2 now2 _ hmem
      have := failRowTimes_spec error ts
        { id := st.next_id, direction := direction, from_chat_id := from_chat_id,
          to_chat_id := to_chat_id, message_id := message_id, topic_id := topic_id,
          retry_count := 0, next_retry_at := some now0, status := "pending",
          error := none, created_at := now0 } 0 (by simp) (by simp)
      have hfailed := this.2.1
      rw [if_pos (by simpa using hceil)] at hfailed
      rw [hst] at hfailed
      exact absurd hfailed (by decide)

/-- C2 witness: two consecutive failures of a freshly enqueued entry leave
it pending with `retry_count = 2`; the step/monotonicity facts are
instantiated at the same inputs. -/
theorem C2_backoff_monotone_and_ceiling_witness :
    (∀ x ∈ (⟨[], 0⟩ : OutboxState).rows, (x.id == (⟨[], 0⟩ : OutboxState).next_id) = false) ∧
    ((∀ (r : OutboxRow) (t : Int), r.retry_count + 1 < 10 →
        (Outbox.mark_failed_row "net" t r).retry_count = r.retry_count + 1 ∧
        (Outbox.mark_failed_row "net" t r).next_retry_at =
          some (t + Outbox.backoff_delay (r.retry_count + 1))) ∧
      (∀ i j : Int, 1 ≤ i → i ≤ j →
        Outbox.backoff_delay i ≤ Outbox.backoff_delay j) ∧
      (∃ rn : OutboxRow,
        (failTimes (⟨[], 0⟩ : OutboxState).next_id "net" [100, 200]
            (Outbox.add ⟨[], 0⟩ 50 "to_topic" 7 (-100) 41 (some 55))).rows =
          (⟨[], 0⟩ : OutboxState).rows ++ [rn] ∧
        rn.retry_count = (([100, 200] : List Int).length : Int) ∧
        rn.status = (if 10 ≤ ([100, 200] : List Int).length then "failed" else "pending") ∧
        (10 ≤ ([100, 200] : List Int).length → ∀ (st2 : OutboxState) (now2 : Int),
          rn ∉ Outbox.get_pending st2 now2))) :=
  ⟨fun x hx => absurd hx (List.not_mem_nil x),
    C2_backoff_monotone_and_ceiling ⟨[], 0⟩ 50 "to_topic" 7 (-100) 41 (some 55) "net"
      [100, 200] (fun x hx => absurd hx (List.not_mem_nil x))⟩

/-! ### Outbox drainer -/

theorem all_sent_for_mark_sent_preserved (outbox_id j : Nat) (st : OutboxState)
    (h : all_sent_for outbox_id st) : all_sent_for outbox_id (Outbox.mark_sent st j) := by
  intro r hr hid
  simp only [Outbox.mark_sent, updateWhere, List.mem_map] at hr
  obtain ⟨x, hx, hxe⟩ := hr
  by_cases hxj : (x.id == j) = true
  · rw [if_pos hxj] at hxe
    rw [← hxe]
  · rw [if_neg hxj] at hxe
    exact h r (hxe ▸ hx) hid

theorem all_sent_for_mark_sent_self (outbox_id : Nat) (st : OutboxState) :
    all_sent_for outbox_id (Outbox.mark_sent st outbox_id) := by
  intro r hr hid
  simp only [Outbox.mark_sent, updateWhere, List.mem_map] at hr
  obtain ⟨x, hx, hxe⟩ := hr
  by_cases hxj : (x.id == outbox_id) = true
  · rw [if_pos hxj] at hxe
    rw [← hxe]
  · rw [if_neg hxj] at hxe
    exfalso
    apply hxj
    rw [hxe, hid]
    simp

theorem all_sent_for_fold (outbox_id : Nat) (items : List OutboxRow) :
    ∀ st : OutboxState, all_sent_for outbox_id st →
      all_sent_for outbox_id (items.foldl (fun ob it => Outbox.mark_sent ob it.id) st) := by
  induction items with
  | nil => intro st h; exact h
  | cons it items ih =>
    intro st h
    exact ih _ (all_sent_for_mark_sent_preserved outbox_id it.id st h)

theorem all_sent_for_fold_mem (e : OutboxRow) (items : List OutboxRow) :
    ∀ st : OutboxState, e ∈ items →
      all_sent_for e.id (items.foldl (fun ob it => Outbox.mark_sent ob it.id) st) := by
  induction items with
  | nil => intro st he; exact absurd he (List.not_mem_nil e)
  | cons it items ih =>
    intro st he
    rcases List.mem_cons.mp he with heq | htl
    · rw [List.foldl_cons, heq]
      exact all_sent_for_fold it.id items _ (all_sent_for_mark_sent_self it.id st)
    · exact ih _ htl

/-- The drainer with an always-succeeding transport only marks entries sent:
at the level of the outbox component it is a fold of `mark_sent`. -/
theorem job_process_outbox_ok_outbox (items : List OutboxRow) (now : Int) :
    ∀ st : SystemState,
      (items.foldl
          (fun s item =>
            match (fun (_ : OutboxRow) => (Except.ok () : Except String Unit)) item with
            | .ok _ => { s with outbox := Outbox.mark_sent s.outbox item.id }
            | .error e => { s with outbox := Outbox.mark_failed s.outbox item.id e now })
          st).outbox =
        items.foldl (fun ob it => Outbox.mark_sent ob it.id) st.outbox := by
  induction items with
  | nil => intro st; rfl
  | cons it items ih => intro st; exact ih _

/-- The drainer never touches the chats, sent_messages or messages tables,
whatever the transport does. -/
theorem job_process_outbox_stores (transport : OutboxRow → Except String Unit)
    (now : Int) (st : SystemState) :
    (job_process_outbox transport now st).chats = st.chats ∧
    (job_process_outbox transport now st).sent_messages = st.sent_messages ∧
    (job_process_outbox transport now st).messages = st.messages := by
  unfold job_process_outbox
  generalize Outbox.get_pending st.outbox now = items
  induction items generalizing st with
  | nil => exact ⟨rfl, rfl, rfl⟩
  | cons it items ih =>
    rw [List.foldl_cons]
    cases transport it with
    | ok _ => exact ih _
    | error e => exact ih _

/-- Entries returned by `get_pending` are rows of the outbox. -/
theorem get_pending_mem_rows (st : OutboxState) (now : Int) (r : OutboxRow)
    (hr : r ∈ Outbox.get_pending st now) : r ∈ st.rows := by
  unfold Outbox.get_pending at hr
  have h1 := List.mem_of_mem_take hr
  rw [List.mem_insertionSort] at h1
  exact (List.mem_filter.mp h1).1

/-! ### Claim theorems: drainer -/

/-- C1 amended: when a later drainer tick redelivers a pending outbox entry
and the transport now succeeds, the entry's status becomes `sent` and it is
never drained again (exactly-once marking) — but the Conversation Store is
left completely unchanged: `job_process_outbox` performs no
`Chat.new_message` / `Chat.mark_answered` transition (and records no
message mapping), regardless of the entry's direction. -/
theorem C1_drain_sends_but_store_unchanged (st : SystemState) (now : Int) (e : OutboxRow)
    (he : e ∈ Outbox.get_pending st.outbox now) :
    (job_process_outbox (fun _ => .ok ()) now st).chats = st.chats ∧
    (job_process_outbox (fun _ => .ok ()) now st).sent_messages = st.sent_messages ∧
    (job_process_outbox (fun _ => .ok ()) now st).messages = st.messages ∧
    all_sent_for e.id (job_process_outbox (fun _ => .ok ()) now st).outbox ∧
    ∀ (now2 : Int) (r : OutboxRow),
      r ∈ Outbox.get_pending (job_process_outbox (fun _ => .ok ()) now st).outbox now2 →
      r.id ≠ e.id := by
  have hstores := job_process_outbox_stores (fun _ => .ok ()) now st
  have houtbox : (job_process_outbox (fun _ => .ok ()) now st).outbox =
      (Outbox.get_pending st.outbox now).foldl
        (fun ob it => Outbox.mark_sent ob it.id) st.outbox := by
    unfold job_process_outbox
    exact job_process_outbox_ok_outbox _ now st
  have hall : all_sent_for e.id (job_process_outbox (fun _ => .ok ()) now st).outbox := by
    rw [houtbox]
    exact all_sent_for_fold_mem e _ st.outbox he
  refine ⟨hstores.1, hstores.2.1, hstores.2.2, hall, ?_⟩
  intro now2 r hr hid
  have hpend := get_pending_status _ now2 r hr
  have hrows := get_pending_mem_rows _ now2 r hr
  have hsent := hall r hrows hid
  rw [hpend] at hsent
  exact absurd hsent (by decide)

/-- C1 witness: a single pending `to_topic` entry drained at time 30 by a
succeeding transport; the theorem's conclusions hold at this input. -/
theorem C1_drain_sends_but_store_unchanged_witness :
    c1_entry ∈ Outbox.get_pending c1_wstate.outbox 30 ∧
    ((job_process_outbox (fun _ => .ok ()) 30 c1_wstate).chats = c1_wstate.chats ∧
      (job_process_outbox (fun _ => .ok ()) 30 c1_wstate).sent_messages =
        c1_wstate.sent_messages ∧
      (job_process_outbox (fun _ => .ok ()) 30 c1_wstate).messages = c1_wstate.messages ∧
      all_sent_for c1_entry.id (job_process_outbox (fun _ => .ok ()) 30 c1_wstate).outbox ∧
      ∀ (now2 : Int) (r : OutboxRow),
        r ∈ Outbox.get_pending
            (job_process_outbox (fun _ => .ok ()) 30 c1_wstate).outbox now2 →
        r.id ≠ c1_entry.id) :=
  ⟨by decide, C1_drain_sends_but_store_unchanged c1_wstate 30 c1_entry (by decide)⟩

/-- C1 counterexample to the original claim: an entry created by a failed
immediate relay to the topic of a conversation currently `answered` with
`unread_count = 0` is drained by a succeeding transport. Exactly one entry
is `sent`, yet the conversation row is bit-for-bit unchanged — its status
stays `answered` and its `unread_count` stays 0, not the `unread` /
incremented-count transition an immediate success would have caused. -/
theorem C1_drainer_skips_store_transition :
    ((job_process_outbox (fun _ => .ok ()) 30
        (forward_to_topic (-100) (.error "down") 7 41 55 7 "hi" "text" 20
          c1_cstate).2).outbox.rows.filter
      (fun r => r.status == "sent")).length = 1 ∧
    (job_process_outbox (fun _ => .ok ()) 30
        (forward_to_topic (-100) (.error "down") 7 41 55 7 "hi" "text" 20
          c1_cstate).2).chats = [c1_chat] ∧
    ∀ c ∈ (job_process_outbox (fun _ => .ok ()) 30
        (forward_to_topic (-100) (.error "down") 7 41 55 7 "hi" "text" 20
          c1_cstate).2).chats,
      c.status = "answered" ∧ c.unread_count = 0 := by
  refine ⟨by decide, by decide, ?_⟩
  intro c hc
  have h1 : (job_process_outbox (fun _ => .ok ()) 30
      (forward_to_topic (-100) (.error "down") 7 41 55 7 "hi" "text" 20
        c1_cstate).2).chats = [c1_chat] := by decide
  rw [h1] at hc
  rw [List.mem_singleton.mp hc]
  exact ⟨rfl, rfl⟩

/-! ### Mapping log: per-user prune bound -/

theorem applyInserts_cons (x : Int × Int × Int) (l : List (Int × Int × Int)) (st : MapState) :
    applyInserts (x :: l) st = applyInserts l (save_message_mapping st x.1 x.2.1 x.2.2) := rfl

theorem applyInserts_append (l1 l2 : List (Int × Int × Int)) (st : MapState) :
    applyInserts (l1 ++ l2) st = applyInserts l2 (applyInserts l1 st) := by
  simp [applyInserts, List.foldl_append]

/-- A strict version of filter-length monotonicity: if `p` implies `q`
pointwise and some element satisfies `q` but not `p`, the `p`-filter is
strictly shorter. -/
theorem length_filter_lt_length_filter (l : List α) (p q : α → Bool)
    (himp : ∀ x ∈ l, p x = true → q x = true) (x0 : α) (hx0 : x0 ∈ l)
    (hq : q x0 = true) (hp : p x0 = false) :
    (l.filter p).length < (l.filter q).length := by
  induction l with
  | nil => cases hx0
  | cons a l ih =>
    have himp' : ∀ x ∈ l, p x = true → q x = true :=
      fun x hx => himp x (List.mem_cons_of_mem a hx)
    have hle : (l.filter p).length ≤ (l.filter q).length := by
      rw [← List.countP_eq_length_filter, ← List.countP_eq_length_filter]
      exact List.countP_mono_left himp'
    rcases List.mem_cons.mp hx0 with rfl | hmem
    · simp [List.filter_cons, hp, hq]
      omega
    · cases hpa : p a
      · cases hqa : q a
        · simp [List.filter_cons, hpa, hqa]
          exact ih himp' hmem
        · simp [List.filter_cons, hpa, hqa]
          have := ih himp' hmem
          omega
      · have hqa : q a = true := himp a (List.mem_cons_self a l) hpa
        simp [List.filter_cons, hpa, hqa]
        exact ih himp' hmem

/-- Helper: a row of a list with at most 100 rows of its user survives the
prune predicate. -/
theorem filter_no_prune_aux (L : List SentRow) (u : Int) (r : SentRow) (hr : r ∈ L)
    (hcnt : (L.filter fun x => x.user_id == u).length ≤ 100) :
    (!(r.user_id == u) ||
      decide ((L.filter fun x => x.user_id == u && decide (r.id < x.id)).length < 100)) = true := by
  by_cases hu : (r.user_id == u) = true
  · have hlt : (L.filter fun x => x.user_id == u && decide (r.id < x.id)).length <
        (L.filter fun x => x.user_id == u).length := by
      refine length_filter_lt_length_filter L _ _ ?_ r hr hu ?_
      · intro x _ hx
        simp only [Bool.and_eq_true] at hx
        exact hx.1
      · simp
    simp only [hu, Bool.not_true, Bool.false_or]
    exact decide_eq_true (by omega)
  · simp [hu]

/-- An insert that finds the user at fewer than 100 rows does not prune:
it is a plain append of the new row. -/
theorem save_no_prune (st : MapState) (u t m : Int)
    (h : (st.rows.filter (fun r => r.user_id == u)).length < 100) :
    save_message_mapping st u t m =
      ⟨st.rows ++ [({ id := st.next_id, user_id := u, topic_msg_id := t, user_msg_id := m } : SentRow)],
        st.next_id + 1⟩ := by
  simp only [save_message_mapping, MapState.mk.injEq, and_true]
  apply List.filter_eq_self.mpr
  intro r hr
  refine filter_no_prune_aux _ u r hr ?_
  rw [List.filter_append]
  simp only [List.length_append]
  have hone :
      (List.filter (fun x => x.user_id == u)
        [({ id := st.next_id, user_id := u, topic_msg_id := t, user_msg_id := m } : SentRow)]).length ≤ 1 :=
    List.length_filter_le _ _
  omega

/-- A run of at most `100 - |st.rows|` inserts never prunes: the final rows
are the initial rows followed by fresh consecutive-id rows. -/
theorem applyInserts_no_prune (l : List (Int × Int × Int)) :
    ∀ st : MapState, st.rows.length + l.length ≤ 100 →
      applyInserts l st = ⟨st.rows ++ seqRows st.next_id l, st.next_id + l.length⟩ := by
  induction l with
  | nil =>
    intro st h
    cases st
    simp [applyInserts, seqRows]
  | cons x l ih =>
    intro st h
    rw [applyInserts_cons]
    simp only [List.length_cons] at h
    have hcnt : (st.rows.filter (fun r => r.user_id == x.1)).length < 100 := by
      have hfl := List.length_filter_le (fun r => r.user_id == x.1) st.rows
      omega
    rw [save_no_prune st x.1 x.2.1 x.2.2 hcnt]
    have h2 : (st.rows ++
        [({ id := st.next_id, user_id := x.1, topic_msg_id := x.2.1, user_msg_id := x.2.2 } : SentRow)]).length
          + l.length ≤ 100 := by
      rw [List.length_append]
      simp only [List.length_singleton]
      omega
    rw [ih _ h2]
    simp only [MapState.mk.injEq, seqRows, List.append_assoc, List.singleton_append,
      List.length_cons]
    exact ⟨trivial, by omega⟩

/-- The ids of the insert-extended row list stay unique. -/
theorem inserted_ids_nodup (st : MapState) (hwf : MapWF st) (u t m : Int) :
    ((st.rows ++ [({ id := st.next_id, user_id := u, topic_msg_id := t, user_msg_id := m } : SentRow)]).map
      (fun r => r.id)).Nodup := by
  rw [List.map_append]
  simp only [List.map_cons, List.map_nil]
  rw [List.nodup_append]
  refine ⟨hwf.2, List.nodup_singleton _, ?_⟩
  intro a ha hb
  simp only [List.mem_singleton] at hb
  rcases List.mem_map.mp ha with ⟨r, hr, rfl⟩
  exact absurd (hb ▸ hwf.1 r hr) (lt_irrefl _)

/-- `save_message_mapping` preserves well-formedness. -/
theorem MapWF_save (st : MapState) (hwf : MapWF st) (u t m : Int) :
    MapWF (save_message_mapping st u t m) := by
  constructor
  · intro r hr
    simp only [save_message_mapping] at hr
    have hr2 := List.mem_of_mem_filter hr
    rcases List.mem_append.mp hr2 with hl | hr3
    · exact Nat.lt_succ_of_lt (hwf.1 r hl)
    · simp only [List.mem_singleton] at hr3
      rw [hr3]
      exact Nat.lt_succ_self _
  · show (((st.rows ++
        [({ id := st.next_id, user_id := u, topic_msg_id := t, user_msg_id := m } : SentRow)]).filter
          _).map (fun r => r.id)).Nodup
    exact List.Sublist.nodup
      (List.Sublist.map (fun r : SentRow => r.id) (List.filter_sublist _))
      (inserted_ids_nodup st hwf u t m)

/-- Well-formedness holds along every insert sequence. -/
theorem MapWF_applyInserts (l : List (Int × Int × Int)) :
    ∀ st : MapState, MapWF st → MapWF (applyInserts l st) := by
  induction l with
  | nil => intro st h; exact h
  | cons x l ih => intro st h; exact ih _ (MapWF_save st h x.1 x.2.1 x.2.2)

/-- Core bound: on a row list with unique ids, at most 100 rows can have
fewer than 100 rows above them (by id). -/
theorem filter_rank_length_le (L : List SentRow) (hN : (L.map (fun r => r.id)).Nodup) :
    (L.filter fun r =>
        decide ((L.filter fun x => decide (r.id < x.id)).length < 100)).length ≤ 100 := by
  classical
  set rank := fun (r : SentRow) => (L.filter fun x => decide (r.id < x.id)).length with hrank
  set S := L.filter fun r => decide (rank r < 100) with hS
  have hSsub : S ⊆ L := by
    intro x hx
    rw [hS] at hx
    exact List.mem_of_mem_filter hx
  have hrank_lt : ∀ r ∈ S, rank r < 100 := by
    intro r hr
    have := (List.mem_filter.mp hr).2
    exact of_decide_eq_true this
  have hanti : ∀ a ∈ L, ∀ b ∈ L, a.id < b.id → rank b < rank a := by
    intro a ha b hb hab
    refine length_filter_lt_length_filter L _ _ ?_ b hb ?_ ?_
    · intro x _ hx
      have := of_decide_eq_true hx
      exact decide_eq_true (lt_trans hab this)
    · exact decide_eq_true hab
    · simp
  have hrne : ∀ a ∈ L, ∀ b ∈ L, a.id ≠ b.id → rank a ≠ rank b := by
    intro a ha b hb hne
    rcases lt_trichotomy a.id b.id with hlt | heq | hgt
    · have := hanti a ha b hb hlt; omega
    · exact absurd heq hne
    · have := hanti b hb a ha hgt; omega
  have hSidN : (S.map (fun r => r.id)).Nodup := by
    rw [hS]
    exact List.Sublist.nodup (List.Sublist.map (fun r : SentRow => r.id) (List.filter_sublist _)) hN
  have hSN : S.Nodup := List.Nodup.of_map _ hSidN
  have hmapN : (S.map rank).Nodup := by
    refine List.Nodup.map_on ?_ hSN
    intro x hx y hy hf
    by_contra hne
    have hidne : x.id ≠ y.id := by
      intro hid
      exact hne (List.inj_on_of_nodup_map hN (hSsub hx) (hSsub hy) hid)
    exact hrne x (hSsub hx) y (hSsub hy) hidne hf
  have hsub : S.map rank ⊆ List.range 100 := by
    intro n hn
    rcases List.mem_map.mp hn with ⟨r, hr, rfl⟩
    exact List.mem_range.mpr (hrank_lt r hr)
  have hle := (List.subperm_of_subset hmapN hsub).length_le
  simpa using hle

/-- After one insert, the inserted user holds at most 100 rows. -/
theorem save_count_le (st : MapState) (hwf : MapWF st) (u t m : Int) :
    ((save_message_mapping st u t m).rows.filter (fun r => r.user_id == u)).length ≤ 100 := by
  simp only [save_message_mapping]
  set nr : SentRow := { id := st.next_id, user_id := u, topic_msg_id := t, user_msg_id := m }
    with hnr
  set inserted := st.rows ++ [nr] with hins
  set L := inserted.filter (fun x => x.user_id == u) with hL
  have hLrank : ∀ a : SentRow,
      (inserted.filter fun x => x.user_id == u && decide (a.id < x.id)) =
        L.filter fun x => decide (a.id < x.id) := by
    intro a
    rw [hL, List.filter_filter]
    apply List.filter_congr
    intro b _
    exact Bool.and_comm _ _
  have h1 : (inserted.filter fun r =>
        !(r.user_id == u) ||
          decide ((inserted.filter fun x => x.user_id == u && decide (r.id < x.id)).length <
            100)).filter (fun r => r.user_id == u) =
      L.filter fun r => decide ((L.filter fun x => decide (r.id < x.id)).length < 100) := by
    rw [List.filter_filter, hL, List.filter_filter]
    apply List.filter_congr
    intro a _
    cases hu : (a.user_id == u)
    · simp [hu]
    · simp only [hu, Bool.not_true, Bool.false_or, Bool.true_and, Bool.and_true]
      rw [hLrank a]
  rw [h1]
  apply filter_rank_length_le
  rw [hL]
  exact List.Sublist.nodup
    (List.Sublist.map (fun r : SentRow => r.id) (List.filter_sublist _))
    (inserted_ids_nodup st hwf u t m)

/-- An insert for one user leaves every other user's rows untouched. -/
theorem save_other_user (st : MapState) (u t m w : Int) (hw : (u == w) = false) :
    (save_message_mapping st u t m).rows.filter (fun r => r.user_id == w) =
      st.rows.filter (fun r => r.user_id == w) := by
  simp only [save_message_mapping]
  rw [List.filter_filter]
  have hpt : ∀ a ∈ st.rows ++
      [({ id := st.next_id, user_id := u, topic_msg_id := t, user_msg_id := m } : SentRow)],
      ((a.user_id == w) &&
        (!(a.user_id == u) ||
          decide (((st.rows ++
              [({ id := st.next_id, user_id := u, topic_msg_id := t,
                  user_msg_id := m } : SentRow)]).filter
            fun x => x.user_id == u && decide (a.id < x.id)).length < 100))) =
        (a.user_id == w) := by
    intro a _
    cases ha : (a.user_id == w)
    · simp
    · have hau : (a.user_id == u) = false := by
        have haw : a.user_id = w := eq_of_beq ha
        have huw : ¬u = w := by
          intro hcon
          rw [hcon] at hw
          simp at hw
        rw [haw]
        exact beq_false_of_ne fun hcon => huw hcon.symm
      simp [hau]
  rw [List.filter_congr hpt]
  rw [List.filter_append]
  have hnil : (List.filter (fun r => r.user_id == w)
      [({ id := st.next_id, user_id := u, topic_msg_id := t, user_msg_id := m } : SentRow)]) =
      [] := by
    simp only [List.filter_cons, List.filter_nil]
    have huw : (u == w) = false := hw
    simp [huw]
  rw [hnil, List.append_nil]

/-- The per-user bound of claim C9: after any insert sequence from an empty
table, every user holds at most 100 mapping rows. -/
theorem applyInserts_count_le (l : List (Int × Int × Int)) (w : Int) :
    ((applyInserts l ⟨[], 0⟩).rows.filter (fun r => r.user_id == w)).length ≤ 100 := by
  induction l using List.reverseRecOn with
  | nil => simp [applyInserts]
  | append_singleton l x ih =>
    rw [applyInserts_append]
    have hwf : MapWF (applyInserts l ⟨[], 0⟩) :=
      MapWF_applyInserts l ⟨[], 0⟩ ⟨fun r hr => absurd hr (List.not_mem_nil r), List.nodup_nil⟩
    show ((save_message_mapping (applyInserts l ⟨[], 0⟩) x.1 x.2.1
        x.2.2).rows.filter (fun r => r.user_id == w)).length ≤ 100
    by_cases hx : (x.1 == w) = true
    · have hxe : x.1 = w := eq_of_beq hx
      rw [← hxe]
      exact save_count_le _ hwf x.1 x.2.1 x.2.2
    · have hxf : (x.1 == w) = false := by
        cases h2 : (x.1 == w)
        · rfl
        · exact absurd h2 hx
      rw [save_other_user _ x.1 x.2.1 x.2.2 w hxf]
      exact ih

/-- Provenance: every surviving row was one of the inserts. -/
theorem applyInserts_mem (l : List (Int × Int × Int)) :
    ∀ (st : MapState) (r : SentRow), r ∈ (applyInserts l st).rows →
      r ∈ st.rows ∨ (r.user_id, r.topic_msg_id, r.user_msg_id) ∈ l := by
  induction l with
  | nil => intro st r hr; exact Or.inl hr
  | cons x l ih =>
    intro st r hr
    rw [applyInserts_cons] at hr
    rcases ih _ r hr with hmem | htl
    · simp only [save_message_mapping] at hmem
      have hmem2 := List.mem_of_mem_filter hmem
      rcases List.mem_append.mp hmem2 with h1 | h2
      · exact Or.inl h1
      · simp only [List.mem_singleton] at h2
        right
        rw [h2]
        exact List.mem_cons.mpr (Or.inl rfl)
    · exact Or.inr (List.mem_cons_of_mem x htl)

/-- `get_user_msg_id` returns nothing exactly when no surviving row has the
requested user and topic message id. -/
theorem get_user_msg_id_eq_none (st : MapState) (u t : Int) :
    get_user_msg_id st u t = none ↔
      ∀ r ∈ st.rows, ¬(r.user_id = u ∧ r.topic_msg_id = t) := by
  unfold get_user_msg_id
  rw [Option.map_eq_none']
  rw [List.find?_eq_none]
  constructor
  · intro h r hr hx
    have := h r hr
    simp only [Bool.and_eq_true, beq_iff_eq] at this
    exact this ⟨hx.1, hx.2⟩
  · intro h r hr
    have := h r hr
    simp only [Bool.and_eq_true, beq_iff_eq]
    intro hx
    exact this ⟨hx.1, hx.2⟩

/-- C9 amended: after any sequence of `save_message_mapping` inserts from an
empty table, every user retains at most 100 mapping rows; and provided the
topic message ids inserted for a user are pairwise distinct, looking up the
topic message id of a pruned insert (one whose row no longer survives)
returns `none`. (Without the distinctness proviso a later insert may reuse
the pruned entry's topic id and the lookup resolves to the newer mapping.) -/
theorem C9_mapping_bound_and_pruned_lookup (l : List (Int × Int × Int)) (u t m : Int)
    (hins : (u, t, m) ∈ l)
    (hdist : ((l.filter (fun x => x.1 == u)).map (fun x => x.2.1)).Nodup)
    (hpruned : ∀ r ∈ (applyInserts l ⟨[], 0⟩).rows,
      ¬(r.user_id = u ∧ r.topic_msg_id = t ∧ r.user_msg_id = m)) :
    (∀ w : Int,
      ((applyInserts l ⟨[], 0⟩).rows.filter (fun r => r.user_id == w)).length ≤ 100) ∧
    get_user_msg_id (applyInserts l ⟨[], 0⟩) u t = none := by
  refine ⟨fun w => applyInserts_count_le l w, ?_⟩
  rw [get_user_msg_id_eq_none]
  intro r hr hx
  obtain ⟨hru, hrt⟩ := hx
  rcases applyInserts_mem l ⟨[], 0⟩ r hr with hmem | htriple
  · exact absurd hmem (List.not_mem_nil r)
  · rw [hru, hrt] at htriple
    have hm1 : ((u, t, m) : Int × Int × Int) ∈ l.filter (fun x => x.1 == u) :=
      List.mem_filter.mpr ⟨hins, by simp⟩
    have hm2 : ((u, t, r.user_msg_id) : Int × Int × Int) ∈ l.filter (fun x => x.1 == u) :=
      List.mem_filter.mpr ⟨htriple, by simp⟩
    have heq : ((u, t, m) : Int × Int × Int) = (u, t, r.user_msg_id) :=
      List.inj_on_of_nodup_map hdist hm1 hm2 rfl
    have hmr : m = r.user_msg_id := by
      simpa using heq
    exact hpruned r hr ⟨hru, hrt, hmr.symm⟩

theorem c9_first_eval : applyInserts c9w_first ⟨[], 0⟩ = ⟨c9_rows, 100⟩ := by
  rw [applyInserts_no_prune c9w_first ⟨[], 0⟩ (by decide)]
  decide

theorem c9w_eval :
    applyInserts c9w_list ⟨[], 0⟩ = save_message_mapping ⟨c9_rows, 100⟩ 1 1099 0 := by
  rw [show c9w_list = c9w_first ++ [((1 : Int), (1099 : Int), (0 : Int))] from rfl,
    applyInserts_append, c9_first_eval]
  rfl

theorem c9c_eval :
    applyInserts c9c_list ⟨[], 0⟩ = save_message_mapping ⟨c9_rows, 100⟩ 1 5 2 := by
  rw [show c9c_list = c9w_first ++ [((1 : Int), (5 : Int), (2 : Int))] from rfl,
    applyInserts_append, c9_first_eval]
  rfl

/-- C9 witness: the concrete 101-insert run with distinct topics; user 1
keeps 100 rows and the pruned first entry's topic id 5 resolves to `none`. -/
theorem C9_mapping_bound_and_pruned_lookup_witness :
    (((1, 5, 1) : Int × Int × Int) ∈ c9w_list ∧
      ((c9w_list.filter (fun x => x.1 == 1)).map (fun x => x.2.1)).Nodup ∧
      (∀ r ∈ (applyInserts c9w_list ⟨[], 0⟩).rows,
        ¬(r.user_id = 1 ∧ r.topic_msg_id = 5 ∧ r.user_msg_id = 1))) ∧
    ((∀ w : Int,
        ((applyInserts c9w_list ⟨[], 0⟩).rows.filter (fun r => r.user_id == w)).length ≤ 100) ∧
      get_user_msg_id (applyInserts c9w_list ⟨[], 0⟩) 1 5 = none) := by
  have hpr : ∀ r ∈ (applyInserts c9w_list ⟨[], 0⟩).rows,
      ¬(r.user_id = 1 ∧ r.topic_msg_id = 5 ∧ r.user_msg_id = 1) := by
    rw [c9w_eval]
    decide
  exact ⟨⟨by decide, by decide, hpr⟩,
    C9_mapping_bound_and_pruned_lookup c9w_list 1 5 1 (by decide) (by decide) hpr⟩

/-- C9 counterexample to the original claim: in the concrete run
`c9c_list` the first insert (user 1, topic 5, message 1) is pruned — no
surviving row carries its triple — yet `get_user_msg_id` on its topic id
returns `some 2` (the newer mapping that reused topic 5), not `none`. -/
theorem C9_pruned_topic_still_resolves :
    ((1, 5, 1) : Int × Int × Int) ∈ c9c_list ∧
    (∀ r ∈ (applyInserts c9c_list ⟨[], 0⟩).rows,
      ¬(r.user_id = 1 ∧ r.topic_msg_id = 5 ∧ r.user_msg_id = 1)) ∧
    get_user_msg_id (applyInserts c9c_list ⟨[], 0⟩) 1 5 = some 2 := by
  refine ⟨by decide, ?_, ?_⟩
  · rw [c9c_eval]
    decide
  · rw [c9c_eval]
    decide

end SupportBot
